import Mathlib

/-!
# BreedRecognition: the camera lifecycle of `src/App.jsx`

A shallow embedding of the `App` component: its `useState` cells, the camera
effect with its `isMounted` flag and its cleanup closure, the event handlers
(`toggleCamera`, `retryCamera`, `captureFrame`, `handleImageUpload`,
`clearUploadedImage`), the continuations of `getUserMedia` and `play()`, and the
handlers attached to the `<video>` element.

The browser is modelled by explicit state: the media streams that still have an
un-stopped track, the `getUserMedia` requests and `play()` promises that have
not settled, the `<video>` elements created so far, the pending timers and file
reads.  One `Event` is one browser task (a click, a promise settling, a media
notification); React re-renders after each of them, which is when the
`<video>` element is mounted or unmounted and when the camera effect re-runs.
-/

namespace BreedRecognition

/-! ## Data model -/

/-- The three values `activeTab` ever takes (`setActiveTab` is only called with
these literals). -/
inductive Tab
  | camera
  | upload
  | about
  deriving DecidableEq, Repr

/-- A data URL, represented by what it encodes: the PNG produced by
`canvas.toDataURL` of a canvas bitmap, the string `data:,` that `toDataURL`
returns for a canvas without pixels, or the result of
`FileReader.readAsDataURL` on a file. -/
inductive DataUrl
  | png (width height : Nat) (pixels : List Nat)
  | empty
  | file (mime : String) (bytes : List Nat)
  deriving DecidableEq, Repr

/-- The `useState` cells of `App` (lines 6-13). A media stream is named by the
number the browser gave it. -/
structure AppState where
  stream : Option Nat
  capturedImage : Option DataUrl
  isCameraActive : Bool
  confidence : Nat
  cameraError : Option String
  isCameraEnabled : Bool
  activeTab : Tab
  uploadedImage : Option DataUrl
  deriving DecidableEq, Repr

/-- Which `initCamera` closure a continuation belongs to: the one of the camera
effect (with the number of the effect run whose `isMounted` it reads), or the
one created by `retryCamera`. -/
inductive Origin
  | effect (run : Nat)
  | retry
  deriving DecidableEq, Repr

/-- A `<video>` DOM element: the two properties the code assigns. -/
structure VideoElement where
  srcObject : Option Nat
  onloadedmetadata : Option Origin
  deriving DecidableEq, Repr

/-- The hidden `<canvas>` element. -/
structure Canvas where
  width : Nat
  height : Nat
  pixels : List Nat
  deriving DecidableEq, Repr

/-- What `captureFrame` reads from the video element at call time:
`videoWidth`, `videoHeight`, and the frame `drawImage` would copy (`none` while
the element has no frame to draw, in which case `drawImage` draws nothing). -/
structure VideoFrame where
  videoWidth : Nat
  videoHeight : Nat
  pixels : Option (List Nat)
  deriving DecidableEq, Repr

/-- A file chosen in the file input: its MIME type and content. -/
structure File where
  mime : String
  bytes : List Nat
  deriving DecidableEq, Repr

/-- A value `Math.random()` can return: a double in `[0, 1)`, written
`m / 2 ^ q` with a significand `m` of at most 53 bits (every double in that
interval, subnormal ones included, has this form). -/
structure UnitDouble where
  m : Nat
  q : Nat
  hm : m < 2 ^ 53
  hq : m < 2 ^ q

/-- The component together with the browser state it interacts with.

* `isMounted` holds the `let isMounted` flag of every run of the camera effect,
  by run number; `effectRun` is the latest run and `cleanupStream` the value of
  `stream` its cleanup closure captured.
* `live` lists the streams that still have an un-stopped track.
* `requests` holds the `getUserMedia` calls by request number: `some o` while the
  promise is pending (with the closure awaiting it), `none` once settled.
* `videos` are the `<video>` elements created so far, `videoRef` the mounted one.
* `pendingPlay` lists the elements on which a `play()` promise is pending.
* `timers` counts the pending `setTimeout` callbacks, `readers` the files whose
  `FileReader` has not fired `onload` yet. -/
structure World where
  state : AppState
  mounted : Bool
  isMounted : List Bool
  effectRun : Nat
  cleanupStream : Option Nat
  nextStream : Nat
  live : List Nat
  requests : List (Option Origin)
  videos : List VideoElement
  videoRef : Option Nat
  pendingPlay : List Nat
  canvas : Canvas
  timers : Nat
  readers : List File
  deriving DecidableEq, Repr

/-! ## Media streams -/

/-- Effect of `stream.getTracks().forEach(track => track.stop())` on stream `s`. -/
def stopTracks (s : Nat) (w : World) : World :=
  { w with live := w.live.filter (fun t => t != s) }

/-- The guarded form `if (stream) { stream.getTracks().forEach(...) }`. -/
def stopIfHeld (held : Option Nat) (w : World) : World :=
  match held with
  | some s => stopTracks s w
  | none => w

/-- A `getUserMedia` promise resolving: the browser hands out a new stream whose
tracks are live. Returns the stream together with the new browser state. -/
def newStream (w : World) : Nat × World :=
  (w.nextStream, { w with nextStream := w.nextStream + 1, live := w.live ++ [w.nextStream] })

/-- Starting `navigator.mediaDevices.getUserMedia(...)` from closure `o`. -/
def getUserMedia (o : Origin) (w : World) : World :=
  { w with requests := w.requests ++ [some o] }

/-! ## The camera effect (lines 17-71) -/

/-- The `isMounted` flag of effect run `run`. -/
def isMountedFlag (w : World) (run : Nat) : Bool :=
  w.isMounted.getD run false

/-- The cleanup function of the latest effect run (lines 65-70): it clears that
run's `isMounted` and stops the tracks of the `stream` it captured. -/
def effectCleanup (w : World) : World :=
  stopIfHeld w.cleanupStream { w with isMounted := w.isMounted.set w.effectRun false }

/-- A new run of the effect body (lines 18-62): a fresh `isMounted = true`, the
cleanup closure capturing the `stream` of this render, and `initCamera()` up to
its `await`. -/
def cameraEffect (w : World) : World :=
  let w1 := { w with
    effectRun := w.isMounted.length
    isMounted := w.isMounted ++ [true]
    cleanupStream := w.state.stream }
  if w1.state.isCameraEnabled then
    getUserMedia (.effect w1.effectRun)
      { w1 with state := { w1.state with cameraError := none } }
  else w1

/-- Whether the `<video>` element is rendered (lines 277, 374, 376). -/
def videoShown (s : AppState) : Bool :=
  s.activeTab == .camera && s.isCameraEnabled

/-- React attaching or detaching `videoRef` on commit: a newly rendered
`<video>` is a new element; an element that is no longer rendered is detached
and the ref reset to `null`. -/
def commitVideo (w : World) : World :=
  if videoShown w.state then
    match w.videoRef with
    | some _ => w
    | none => { w with videos := w.videos ++ [⟨none, none⟩], videoRef := some w.videos.length }
  else { w with videoRef := none }

/-- The re-render after an event: the DOM is committed and, when
`isCameraEnabled` differs from the previous render (the dependency array of
line 71), the previous cleanup runs and then the effect. -/
def render (prevEnabled : Bool) (w : World) : World :=
  let w1 := commitVideo w
  if w1.state.isCameraEnabled != prevEnabled then cameraEffect (effectCleanup w1) else w1

/-- The `videoRef.current.srcObject = ...; videoRef.current.onloadedmetadata = ...`
assignments, under `if (videoRef.current)`. -/
def bindVideo (s : Nat) (o : Origin) (w : World) : World :=
  match w.videoRef with
  | some v => { w with videos := w.videos.set v ⟨some s, some o⟩ }
  | none => w

/-- The message of line 57 and line 162. -/
def accessError : String :=
  "Unable to access camera. Please ensure camera permissions are granted."

/-- The message of line 48 and line 156. -/
def playbackError : String :=
  "Failed to start video playback"

/-- Continuation of the effect's `await getUserMedia` on success (lines 36-53). -/
def effectMediaResolved (run : Nat) (w : World) : World :=
  let (s, w1) := newStream w
  if isMountedFlag w1 run then
    bindVideo s (.effect run) { w1 with state := { w1.state with stream := some s } }
  else w1

/-- The effect's `catch` block (lines 54-59). -/
def effectMediaRejected (run : Nat) (w : World) : World :=
  if isMountedFlag w run then
    { w with state := { w.state with cameraError := some accessError } }
  else w

/-- The call `videoRef.current.play()`: a promise becomes pending on the mounted
element; with `videoRef.current` null the call throws and nothing else runs. -/
def callPlay (w : World) : World :=
  match w.videoRef with
  | some v => { w with pendingPlay := w.pendingPlay ++ [v] }
  | none => w

/-- The `onloadedmetadata` handler installed by the effect (lines 42-51). -/
def effectLoadedMetadata (run : Nat) (w : World) : World :=
  if isMountedFlag w run then callPlay w else w

/-- The `.then` of `play()` (lines 44-46 and 152-154). -/
def playFulfilled (w : World) : World :=
  { w with state := { w.state with isCameraActive := true } }

/-- The `.catch` of `play()` (lines 46-49 and 154-157). -/
def playFailed (w : World) : World :=
  { w with state := { w.state with cameraError := some playbackError } }

/-! ## Event handlers -/

/-- The `toggleCamera` handler (lines 111-125), before the re-render. -/
def toggleCamera (w : World) : World :=
  if w.state.isCameraEnabled then
    let w1 := stopIfHeld w.state.stream w
    { w1 with state := { w1.state with
        stream := none
        isCameraActive := false
        cameraError := none
        isCameraEnabled := false } }
  else
    { w with state := { w.state with isCameraEnabled := true } }

/-- The `retryCamera` handler (lines 128-167) up to the `await` of its own
`initCamera`. -/
def retryCamera (w : World) : World :=
  let w1 := stopIfHeld w.state.stream w
  getUserMedia .retry
    { w1 with state := { w1.state with
        stream := none
        isCameraActive := false
        cameraError := none } }

/-- Continuation of `retryCamera`'s `await getUserMedia` on success (148-159). -/
def retryMediaResolved (w : World) : World :=
  let (s, w1) := newStream w
  bindVideo s .retry { w1 with state := { w1.state with stream := some s } }

/-- The `catch` block of `retryCamera` (lines 160-163). -/
def retryMediaRejected (w : World) : World :=
  { w with state := { w.state with cameraError := some accessError } }

/-- The `onloadedmetadata` handler installed by `retryCamera` (151-158). -/
def retryLoadedMetadata (w : World) : World :=
  callPlay w

/-- The value the `width` or `height` attribute of a canvas takes when `value`
is assigned to it: the attribute is an `unsigned long` reflecting a content
attribute, which keeps a value from 0 to 2147483647 and takes its default
(300 for the width, 150 for the height) for a larger one. -/
def canvasAttribute (value fallback : Nat) : Nat :=
  if value ≤ 2147483647 then value else fallback

/-- The canvas after `canvas.width = video.videoWidth`,
`canvas.height = video.videoHeight` (which clears it) and
`drawImage(video, 0, 0, canvas.width, canvas.height)`: `pixels` is the frame
drawn to fill the canvas, which is the frame itself when the canvas has the size
of the video. -/
def drawFrame (video : VideoFrame) : Canvas :=
  { width := canvasAttribute video.videoWidth 300
    height := canvasAttribute video.videoHeight 150
    pixels := match video.pixels with
      | some px => px
      | none =>
        List.replicate
          (canvasAttribute video.videoWidth 300 * canvasAttribute video.videoHeight 150) 0 }

/-- The call `canvas.toDataURL('image/png')`: a canvas with a dimension of 0 has
no pixels and gives `data:,`; any other gives the PNG of its bitmap. -/
def toDataURL (canvas : Canvas) : DataUrl :=
  if canvas.width = 0 ∨ canvas.height = 0 then .empty
  else .png canvas.width canvas.height canvas.pixels

/-- The `captureFrame` handler (lines 74-96). `canvasRef.current` is set for as long
as the component is mounted (the canvas of line 606 is always rendered), so the
guard of line 75 is decided by `videoRef.current`. -/
def captureFrame (video : VideoFrame) (w : World) : World :=
  match w.videoRef with
  | some _ =>
    let canvas := drawFrame video
    { w with
      canvas := canvas
      state := { w.state with capturedImage := some (toDataURL canvas) }
      timers := w.timers + 1 }
  | none => w

/-- The string method `s.startsWith(p)`. -/
def startsWith (s p : String) : Bool :=
  p.toList.isPrefixOf s.toList

/-- The `handleImageUpload` handler (lines 171-191) up to `reader.readAsDataURL`;
`file` is `event.target.files[0]`. A file of another type only raises an alert. -/
def handleImageUpload (file : Option File) (w : World) : World :=
  match file with
  | some f =>
    if startsWith f.mime "image/" then { w with readers := w.readers ++ [f] } else w
  | none => w

/-- The `reader.onload` callback (lines 176-185). -/
def readerOnload (f : File) (w : World) : World :=
  { w with
    state := { w.state with
      uploadedImage := some (.file f.mime f.bytes)
      capturedImage := some (.file f.mime f.bytes)
      activeTab := .upload }
    timers := w.timers + 1 }

/-- The `clearUploadedImage` handler (lines 199-205). -/
def clearUploadedImage (w : World) : World :=
  { w with state := { w.state with uploadedImage := none, capturedImage := none } }

/-- The `onError` prop of the video element (lines 384-387). -/
def videoOnError (w : World) : World :=
  { w with state := { w.state with isCameraActive := false } }

/-- The `onCanPlay` prop of the video element (lines 391-394). -/
def videoOnCanPlay (w : World) : World :=
  { w with state := { w.state with isCameraActive := true } }

/-! ## The placeholder confidence score -/

/-- The quotient `n / 2 ^ k` rounded to the nearest integer, ties to even. -/
def roundHalfEven (n k : Nat) : Nat :=
  let d := n / 2 ^ k
  let r := n % 2 ^ k
  if 2 * r < 2 ^ k then d
  else if 2 ^ k < 2 * r then d + 1
  else if d % 2 = 0 then d else d + 1

/-- The double `Math.random() * 20` for `Math.random() = m / 2 ^ q`: the exact
product is `20 * m / 2 ^ q`; IEEE 754 multiplication keeps 53 significant bits,
rounding to nearest with ties to even, so the lowest `k = log2 (20 * m) - 52`
bits of the numerator are rounded off. The result is the pair `(n, k)` standing
for the double `n * 2 ^ k / 2 ^ q`. -/
def timesTwenty (r : UnitDouble) : Nat × Nat :=
  let k := Nat.log2 (20 * r.m) - 52
  (roundHalfEven (20 * r.m) k, k)

/-- The expression `Math.floor(Math.random() * 20) + 80` of lines 93 and 183. -/
def randomConfidence (r : UnitDouble) : Nat :=
  (timesTwenty r).1 * 2 ^ (timesTwenty r).2 / 2 ^ r.q + 80

/-- The timer callback of lines 92-94 and 182-184. -/
def timerCallback (r : UnitDouble) (w : World) : World :=
  { w with state := { w.state with confidence := randomConfidence r } }

/-! ## Events and the transition function -/

/-- One browser task delivered to the component. Clicks name the button; the
capture buttons carry what the video element shows at that moment; promise
settlements name the request; `timerFired` carries the value `Math.random()`
returns in the callback. -/
inductive Event
  | clickTab (t : Tab)
  | clickToggle
  | clickRetry
  | clickCapture (video : VideoFrame)
  | clickRetake (video : VideoFrame)
  | fileChosen (file : Option File)
  | clickClear
  | mediaResolved (id : Nat)
  | mediaRejected (id : Nat)
  | loadedMetadata (v : Nat)
  | playResolved (v : Nat)
  | playRejected (v : Nat)
  | videoError
  | canPlay
  | timerFired (r : UnitDouble)
  | readerLoaded (i : Nat)
  | unmount

/-- The settlement of request `id` with a stream: the awaiting closure resumes. -/
def mediaResolved (id : Nat) (w : World) : World :=
  match w.requests.getD id none with
  | some (.effect run) => effectMediaResolved run { w with requests := w.requests.set id none }
  | some .retry => retryMediaResolved { w with requests := w.requests.set id none }
  | none => w

/-- The settlement of request `id` with a rejection. -/
def mediaRejected (id : Nat) (w : World) : World :=
  match w.requests.getD id none with
  | some (.effect run) => effectMediaRejected run { w with requests := w.requests.set id none }
  | some .retry => retryMediaRejected { w with requests := w.requests.set id none }
  | none => w

/-- Element `v` firing `loadedmetadata`: it has a source and runs the handler
stored in its `onloadedmetadata` property. -/
def loadedMetadata (v : Nat) (w : World) : World :=
  match w.videos.getD v ⟨none, none⟩ with
  | ⟨some _, some (.effect run)⟩ => effectLoadedMetadata run w
  | ⟨some _, some .retry⟩ => retryLoadedMetadata w
  | _ => w

/-- Whether `cameraError` is truthy (the test of line 398). -/
def truthy (msg : Option String) : Bool :=
  match msg with
  | some m => m != ""
  | none => false

/-- The handler an event runs, if the interface offers it in the current state:

* the tab buttons of the header are always rendered (lines 222-269);
* the two toggle buttons are rendered on the camera tab (lines 347-356, 459-462);
* `Retry Camera` is rendered on the camera tab when the camera is enabled, not
  active and `cameraError` is truthy (lines 374, 376, 396, 399, 408);
* `Capture` is rendered on the camera tab and is `disabled` when
  `isCameraActive` is false (lines 459, 469-475);
* `Retake` is rendered on the camera tab when `isCameraEnabled`, never
  disabled (lines 459, 476-483);
* the file input exists outside the about tab (lines 277, 512-518), `Clear` on
  the upload tab when `uploadedImage` is set (lines 459, 499-506);
* the `onError` and `onCanPlay` props are those of the mounted video element
  (lines 378-395);
* a promise settles, a timer fires, a reader loads only while pending. -/
def handle (w : World) : Event → World
  | .clickTab t => { w with state := { w.state with activeTab := t } }
  | .clickToggle => if w.state.activeTab == .camera then toggleCamera w else w
  | .clickRetry =>
    if w.state.activeTab == .camera && w.state.isCameraEnabled
        && !w.state.isCameraActive && truthy w.state.cameraError
    then retryCamera w else w
  | .clickCapture video =>
    if w.state.activeTab == .camera && w.state.isCameraActive then captureFrame video w else w
  | .clickRetake video =>
    if w.state.activeTab == .camera && w.state.isCameraEnabled then captureFrame video w else w
  | .fileChosen file => if w.state.activeTab != .about then handleImageUpload file w else w
  | .clickClear =>
    if w.state.activeTab == .upload && w.state.uploadedImage.isSome
    then clearUploadedImage w else w
  | .mediaResolved id => mediaResolved id w
  | .mediaRejected id => mediaRejected id w
  | .loadedMetadata v => loadedMetadata v w
  | .playResolved v =>
    if v ∈ w.pendingPlay then playFulfilled { w with pendingPlay := w.pendingPlay.erase v } else w
  | .playRejected v =>
    if v ∈ w.pendingPlay then playFailed { w with pendingPlay := w.pendingPlay.erase v } else w
  | .videoError => if w.videoRef.isSome then videoOnError w else w
  | .canPlay => if w.videoRef.isSome then videoOnCanPlay w else w
  | .timerFired r => if 0 < w.timers then timerCallback r { w with timers := w.timers - 1 } else w
  | .readerLoaded i =>
    match w.readers.get? i with
    | some f => readerOnload f { w with readers := w.readers.eraseIdx i }
    | none => w
  | .unmount => w

/-- Unmounting the component: the video element is detached and the cleanup of
the latest effect run is executed. -/
def teardown (w : World) : World :=
  effectCleanup { w with mounted := false, videoRef := none }

/-- One event: the handler followed by the re-render it causes. The model follows
the component until it is unmounted and stops there: no event is delivered
afterwards, so what a continuation still pending at the unmount does later is
not part of it. -/
def step (w : World) (e : Event) : World :=
  if w.mounted then
    match e with
    | .unmount => teardown w
    | _ => render w.state.isCameraEnabled (handle w e)
  else w

/-- A sequence of events, oldest first. -/
def run (w : World) (es : List Event) : World :=
  es.foldl step w

/-- The component right after it is mounted: the initial `useState` values, and
the first run of the effect, which returns at line 22 since the camera is not
enabled. -/
def init : World :=
  { state :=
      { stream := none
        capturedImage := none
        isCameraActive := false
        confidence := 87
        cameraError := none
        isCameraEnabled := false
        activeTab := .camera
        uploadedImage := none }
    mounted := true
    isMounted := [true]
    effectRun := 0
    cleanupStream := none
    nextStream := 0
    live := []
    requests := []
    videos := []
    videoRef := none
    pendingPlay := []
    canvas := ⟨300, 150, List.replicate (300 * 150) 0⟩
    timers := 0
    readers := [] }

/-! ## Acquisition failures -/

/-- Whether event `e`, delivered in `w`, is an acquisition failure of an attempt
that has not been cancelled: the rejection of a pending `getUserMedia` request
awaited by `retryCamera` or by an effect run whose `isMounted` is still true, or
the rejection of a pending `play()` promise. -/
def acquisitionFails (w : World) : Event → Bool
  | .mediaRejected id =>
    match w.requests.getD id none with
    | some (.effect run) => isMountedFlag w run
    | some .retry => true
    | none => false
  | .playRejected v => decide (v ∈ w.pendingPlay)
  | _ => false

/-- The message the failure handlers pass to `setCameraError`. -/
def failureMessage : Event → String
  | .playRejected _ => playbackError
  | _ => accessError

/-! ## Agreement of the DOM with the render -/

/-- The DOM agrees with the last render: `videoRef` is set exactly when the
`<video>` element is rendered, and it names an element that exists. -/
def videoCommitted (w : World) : Prop :=
  w.videoRef.isSome = videoShown w.state ∧ ∀ v, w.videoRef = some v → v < w.videos.length

/-! ## What the parts of a transition leave unchanged -/

@[simp] theorem stopIfHeld_state (h : Option Nat) (w : World) : (stopIfHeld h w).state = w.state := by
  cases h <;> rfl

@[simp] theorem stopIfHeld_isMounted (h : Option Nat) (w : World) :
    (stopIfHeld h w).isMounted = w.isMounted := by
  cases h <;> rfl

@[simp] theorem stopIfHeld_requests (h : Option Nat) (w : World) :
    (stopIfHeld h w).requests = w.requests := by
  cases h <;> rfl

@[simp] theorem stopIfHeld_pendingPlay (h : Option Nat) (w : World) :
    (stopIfHeld h w).pendingPlay = w.pendingPlay := by
  cases h <;> rfl

@[simp] theorem stopIfHeld_videoRef (h : Option Nat) (w : World) :
    (stopIfHeld h w).videoRef = w.videoRef := by
  cases h <;> rfl

@[simp] theorem commitVideo_state (w : World) : (commitVideo w).state = w.state := by
  unfold commitVideo
  split_ifs
  · split <;> rfl
  · rfl

@[simp] theorem commitVideo_isMounted (w : World) : (commitVideo w).isMounted = w.isMounted := by
  unfold commitVideo
  split_ifs
  · split <;> rfl
  · rfl

@[simp] theorem commitVideo_requests (w : World) : (commitVideo w).requests = w.requests := by
  unfold commitVideo
  split_ifs
  · split <;> rfl
  · rfl

@[simp] theorem commitVideo_effectRun (w : World) : (commitVideo w).effectRun = w.effectRun := by
  unfold commitVideo
  split_ifs
  · split <;> rfl
  · rfl

@[simp] theorem commitVideo_live (w : World) : (commitVideo w).live = w.live := by
  unfold commitVideo
  split_ifs
  · split <;> rfl
  · rfl

@[simp] theorem commitVideo_pendingPlay (w : World) :
    (commitVideo w).pendingPlay = w.pendingPlay := by
  unfold commitVideo
  split_ifs
  · split <;> rfl
  · rfl

@[simp] theorem bindVideo_state (s : Nat) (o : Origin) (w : World) :
    (bindVideo s o w).state = w.state := by
  unfold bindVideo; split <;> rfl

@[simp] theorem bindVideo_isMounted (s : Nat) (o : Origin) (w : World) :
    (bindVideo s o w).isMounted = w.isMounted := by
  unfold bindVideo; split <;> rfl

@[simp] theorem bindVideo_requests (s : Nat) (o : Origin) (w : World) :
    (bindVideo s o w).requests = w.requests := by
  unfold bindVideo; split <;> rfl

@[simp] theorem bindVideo_effectRun (s : Nat) (o : Origin) (w : World) :
    (bindVideo s o w).effectRun = w.effectRun := by
  unfold bindVideo; split <;> rfl

@[simp] theorem bindVideo_pendingPlay (s : Nat) (o : Origin) (w : World) :
    (bindVideo s o w).pendingPlay = w.pendingPlay := by
  unfold bindVideo; split <;> rfl

@[simp] theorem callPlay_state (w : World) : (callPlay w).state = w.state := by
  unfold callPlay; split <;> rfl

@[simp] theorem callPlay_isMounted (w : World) : (callPlay w).isMounted = w.isMounted := by
  unfold callPlay; split <;> rfl

@[simp] theorem callPlay_requests (w : World) : (callPlay w).requests = w.requests := by
  unfold callPlay; split <;> rfl

@[simp] theorem callPlay_effectRun (w : World) : (callPlay w).effectRun = w.effectRun := by
  unfold callPlay; split <;> rfl

/-- A render in which `isCameraEnabled` did not change runs no effect. -/
theorem render_same (w : World) : render w.state.isCameraEnabled w = commitVideo w := by
  simp [render]

theorem render_state_same (p : Bool) (w : World) (h : w.state.isCameraEnabled = p) :
    (render p w).state = w.state := by
  subst h
  rw [render_same, commitVideo_state]

theorem render_live_same (p : Bool) (w : World) (h : w.state.isCameraEnabled = p) :
    (render p w).live = w.live := by
  subst h
  rw [render_same, commitVideo_live]

theorem render_state (p : Bool) (w : World) :
    (render p w).state = w.state ∨ (render p w).state = { w.state with cameraError := none } := by
  unfold render cameraEffect effectCleanup getUserMedia
  simp only
  split_ifs <;> simp

theorem run_append (w : World) (es : List Event) (e : Event) :
    run w (es ++ [e]) = step (run w es) e := by
  simp [run, List.foldl_append]

/-! ## The confidence score stays in range -/

theorem roundHalfEven_le (n k : Nat) : 2 * (roundHalfEven n k * 2 ^ k) ≤ 2 * n + 2 ^ k := by
  have hdm : 2 ^ k * (n / 2 ^ k) + n % 2 ^ k = n := Nat.div_add_mod n (2 ^ k)
  have hpos : 0 < 2 ^ k := Nat.pos_pow_of_pos k (by norm_num)
  unfold roundHalfEven
  simp only
  generalize n / 2 ^ k = d at *
  generalize n % 2 ^ k = r at *
  generalize hP : 2 ^ k = P at *
  have e1 : (d + 1) * P = P * d + P := by ring
  have e2 : d * P = P * d := by ring
  split_ifs <;> simp only [e1, e2] <;> omega

theorem shift_le (r : UnitDouble) : 2 ^ (timesTwenty r).2 ≤ 32 := by
  have h : (timesTwenty r).2 ≤ 5 := by
    show Nat.log2 (20 * r.m) - 52 ≤ 5
    by_cases h0 : 20 * r.m = 0
    · rw [h0]; simp [Nat.log2]
    · have : Nat.log2 (20 * r.m) < 58 := by
        rw [Nat.log2_lt h0]
        have := r.hm
        norm_num at this ⊢
        omega
      omega
  calc 2 ^ (timesTwenty r).2 ≤ 2 ^ 5 := Nat.pow_le_pow_right (by norm_num) h
    _ = 32 := by norm_num

theorem randomConfidence_range (r : UnitDouble) :
    80 ≤ randomConfidence r ∧ randomConfidence r ≤ 99 := by
  have h1 := roundHalfEven_le (20 * r.m) (timesTwenty r).2
  have h2 := shift_le r
  have h3 := r.hq
  have hlt : (timesTwenty r).1 * 2 ^ (timesTwenty r).2 < 20 * 2 ^ r.q := by
    have e : (timesTwenty r).1 = roundHalfEven (20 * r.m) (timesTwenty r).2 := rfl
    rw [e]
    omega
  have hdiv : (timesTwenty r).1 * 2 ^ (timesTwenty r).2 / 2 ^ r.q < 20 := by
    rw [Nat.div_lt_iff_lt_mul (Nat.pos_pow_of_pos _ (by norm_num))]
    exact hlt
  unfold randomConfidence
  generalize (timesTwenty r).1 * 2 ^ (timesTwenty r).2 / 2 ^ r.q = c at hdiv
  omega

theorem handle_confidence (w : World) (e : Event) :
    (handle w e).state.confidence = w.state.confidence ∨
      ∃ r, (handle w e).state.confidence = randomConfidence r := by
  cases e <;> simp only [handle, toggleCamera, retryCamera, captureFrame, handleImageUpload,
    clearUploadedImage, mediaResolved, mediaRejected, loadedMetadata, effectMediaResolved,
    effectMediaRejected, retryMediaResolved, retryMediaRejected, effectLoadedMetadata,
    retryLoadedMetadata, playFulfilled, playFailed, videoOnError, videoOnCanPlay, timerCallback,
    readerOnload, getUserMedia, newStream] <;>
  (repeat' split) <;> simp

theorem step_confidence (w : World) (e : Event) :
    (step w e).state.confidence = w.state.confidence ∨
      ∃ r, (step w e).state.confidence = randomConfidence r := by
  unfold step
  split_ifs
  · have hr : ∀ p w1, (render p w1).state.confidence = w1.state.confidence := by
      intro p w1
      rcases render_state p w1 with h | h <;> rw [h]
    cases e <;> simp only [hr, teardown, effectCleanup, stopIfHeld_state] <;>
      first | exact handle_confidence w _ | simp
  · exact Or.inl rfl

theorem confidence_range_run (es : List Event) :
    80 ≤ (run init es).state.confidence ∧ (run init es).state.confidence ≤ 99 := by
  induction es using List.reverseRecOn with
  | nil => decide
  | append_singleton es e ih =>
    rw [run_append]
    rcases step_confidence (run init es) e with h | ⟨r, h⟩
    · rw [h]; exact ih
    · rw [h]; exact randomConfidence_range r


/-! ## Effect runs and requests along a run -/

theorem getD_set_false (l : List Bool) (i g : Nat) (h : l.getD g false = false) :
    (l.set i false).getD g false = false := by
  simp only [List.getD_eq_getElem?_getD, List.getElem?_set] at *
  split_ifs <;> simp_all

theorem getD_append_lt {α : Type} (l : List α) (x d : α) (g : Nat) (h : g < l.length) :
    (l ++ [x]).getD g d = l.getD g d := by
  simp [List.getD_eq_getElem?_getD, List.getElem?_append_left h]

theorem getD_set_none {α : Type} (l : List (Option α)) (i g : Nat) (o : Option α)
    (h : l.getD g none = o ∨ l.getD g none = none) :
    (l.set i none).getD g none = o ∨ (l.set i none).getD g none = none := by
  simp only [List.getD_eq_getElem?_getD, List.getElem?_set] at *
  split_ifs <;> simp_all

@[simp] theorem stopIfHeld_effectRun (h : Option Nat) (w : World) :
    (stopIfHeld h w).effectRun = w.effectRun := by
  cases h <;> rfl

/-- A step does nothing, tears the component down, or runs a handler and renders. -/
theorem step_cases (w : World) (e : Event) :
    step w e = w ∨ step w e = teardown w ∨
      step w e = render w.state.isCameraEnabled (handle w e) := by
  unfold step
  split_ifs
  · cases e <;> simp
  · exact Or.inl rfl

theorem handle_isMounted (w : World) (e : Event) : (handle w e).isMounted = w.isMounted := by
  cases e <;> simp only [handle, toggleCamera, retryCamera, captureFrame, handleImageUpload,
    clearUploadedImage, mediaResolved, mediaRejected, loadedMetadata, effectMediaResolved,
    effectMediaRejected, retryMediaResolved, retryMediaRejected, effectLoadedMetadata,
    retryLoadedMetadata, playFulfilled, playFailed, videoOnError, videoOnCanPlay, timerCallback,
    readerOnload, getUserMedia, newStream] <;>
  (repeat' split) <;> simp

theorem handle_effectRun (w : World) (e : Event) : (handle w e).effectRun = w.effectRun := by
  cases e <;> simp only [handle, toggleCamera, retryCamera, captureFrame, handleImageUpload,
    clearUploadedImage, mediaResolved, mediaRejected, loadedMetadata, effectMediaResolved,
    effectMediaRejected, retryMediaResolved, retryMediaRejected, effectLoadedMetadata,
    retryLoadedMetadata, playFulfilled, playFailed, videoOnError, videoOnCanPlay, timerCallback,
    readerOnload, getUserMedia, newStream] <;>
  (repeat' split) <;> simp

/-- A handler leaves the requests alone, starts one, or settles one. -/
theorem handle_requests (w : World) (e : Event) :
    (handle w e).requests = w.requests ∨
      (∃ o, (handle w e).requests = w.requests ++ [some o]) ∨
      ∃ i, (handle w e).requests = w.requests.set i none := by
  cases e <;> simp only [handle, toggleCamera, retryCamera, captureFrame, handleImageUpload,
    clearUploadedImage, mediaResolved, mediaRejected, loadedMetadata, effectMediaResolved,
    effectMediaRejected, retryMediaResolved, retryMediaRejected, effectLoadedMetadata,
    retryLoadedMetadata, playFulfilled, playFailed, videoOnError, videoOnCanPlay, timerCallback,
    readerOnload, getUserMedia, newStream] <;>
  (repeat' split) <;> (try simp) <;> (try exact Or.inr (Or.inr ⟨_, rfl⟩))

/-- A render keeps the effect runs, or cleans up the latest and starts a new one. -/
theorem render_isMounted (p : Bool) (w : World) :
    ((render p w).isMounted = w.isMounted ∧ (render p w).effectRun = w.effectRun) ∨
      ((render p w).isMounted = w.isMounted.set w.effectRun false ++ [true] ∧
        (render p w).effectRun = w.isMounted.length) := by
  unfold render cameraEffect effectCleanup getUserMedia
  simp only
  split_ifs <;> simp

theorem render_requests (p : Bool) (w : World) :
    (render p w).requests = w.requests ∨
      ∃ o, (render p w).requests = w.requests ++ [some o] := by
  unfold render cameraEffect effectCleanup getUserMedia
  simp only
  split_ifs <;> simp

theorem step_isMounted (w : World) (e : Event) :
    ((step w e).isMounted = w.isMounted ∧ (step w e).effectRun = w.effectRun) ∨
      ((step w e).isMounted = w.isMounted.set w.effectRun false ∧
        (step w e).effectRun = w.effectRun) ∨
      ((step w e).isMounted = w.isMounted.set w.effectRun false ++ [true] ∧
        (step w e).effectRun = w.isMounted.length) := by
  rcases step_cases w e with h | h | h <;> rw [h]
  · exact Or.inl ⟨rfl, rfl⟩
  · right; left; simp [teardown, effectCleanup]
  · have hr := render_isMounted w.state.isCameraEnabled (handle w e)
    rw [handle_isMounted, handle_effectRun] at hr
    rcases hr with h | h
    · exact Or.inl h
    · exact Or.inr (Or.inr h)

/-- The flag of a cleaned-up effect run stays false. -/
theorem step_flag_false (w : World) (e : Event) (g : Nat) (hg : g < w.isMounted.length)
    (hf : isMountedFlag w g = false) :
    g < (step w e).isMounted.length ∧ isMountedFlag (step w e) g = false := by
  unfold isMountedFlag at *
  rcases step_isMounted w e with h | h | h <;> rw [h.1]
  · exact ⟨hg, hf⟩
  · exact ⟨by simpa using hg, getD_set_false _ _ _ hf⟩
  · constructor
    · simp; omega
    · rw [getD_append_lt _ _ _ _ (by simpa using hg)]
      exact getD_set_false _ _ _ hf

/-- The latest effect run is one of the runs recorded. -/
theorem step_effectRun_lt (w : World) (e : Event) (h : w.effectRun < w.isMounted.length) :
    (step w e).effectRun < (step w e).isMounted.length := by
  rcases step_isMounted w e with h1 | h1 | h1 <;> rw [h1.1, h1.2] <;> simp [h]

theorem run_effectRun_lt (es : List Event) :
    (run init es).effectRun < (run init es).isMounted.length := by
  induction es using List.reverseRecOn with
  | nil => decide
  | append_singleton es e ih =>
    rw [run_append]
    exact step_effectRun_lt _ e ih

/-- A settled or pending request keeps its closure or becomes settled. -/
theorem step_request (w : World) (e : Event) (id : Nat) (o : Option Origin)
    (hid : id < w.requests.length)
    (ho : w.requests.getD id none = o ∨ w.requests.getD id none = none) :
    id < (step w e).requests.length ∧
      ((step w e).requests.getD id none = o ∨ (step w e).requests.getD id none = none) := by
  have hrender : ∀ p w1, id < w1.requests.length →
      (w1.requests.getD id none = o ∨ w1.requests.getD id none = none) →
      id < (render p w1).requests.length ∧
        ((render p w1).requests.getD id none = o ∨ (render p w1).requests.getD id none = none) := by
    intro p w1 h1 h2
    rcases render_requests p w1 with h | ⟨x, h⟩ <;> rw [h]
    · exact ⟨h1, h2⟩
    · rw [getD_append_lt _ _ _ _ h1]
      exact ⟨by simp; omega, h2⟩
  rcases step_cases w e with h | h | h <;> rw [h]
  · exact ⟨hid, ho⟩
  · simpa [teardown, effectCleanup] using And.intro hid ho
  · apply hrender
    · rcases handle_requests w e with h | ⟨x, h⟩ | ⟨i, h⟩ <;> rw [h] <;>
        (try simp only [List.length_append, List.length_set, List.length_singleton]) <;> omega
    · rcases handle_requests w e with h | ⟨x, h⟩ | ⟨i, h⟩ <;> rw [h]
      · exact ho
      · rw [getD_append_lt _ _ _ _ hid]; exact ho
      · exact getD_set_none _ _ _ _ ho

/-- Once an effect run is cleaned up, its request stays cancelled for the rest of the run. -/
theorem run_cancelled (w : World) (g id : Nat) (es : List Event)
    (hg : g < w.isMounted.length) (hf : isMountedFlag w g = false)
    (hid : id < w.requests.length)
    (ho : w.requests.getD id none = some (.effect g) ∨ w.requests.getD id none = none) :
    (g < (run w es).isMounted.length ∧ isMountedFlag (run w es) g = false) ∧
      (id < (run w es).requests.length ∧
        ((run w es).requests.getD id none = some (.effect g) ∨
          (run w es).requests.getD id none = none)) := by
  induction es using List.reverseRecOn with
  | nil => exact ⟨⟨hg, hf⟩, hid, ho⟩
  | append_singleton es e ih =>
    rw [run_append]
    exact ⟨step_flag_false _ e g ih.1.1 ih.1.2, step_request _ e id _ ih.2.1 ih.2.2⟩

/-- The completion of a request whose effect run was cleaned up changes no state cell. -/
theorem cancelled_completion (w : World) (g id : Nat) (hf : isMountedFlag w g = false)
    (ho : w.requests.getD id none = some (.effect g) ∨ w.requests.getD id none = none) :
    (step w (.mediaResolved id)).state = w.state ∧
      (step w (.mediaRejected id)).state = w.state := by
  have hf2 : ∀ (r : List (Option Origin)) (n : Nat) (l : List Nat),
      isMountedFlag { w with requests := r, nextStream := n, live := l } g = false := by
    intro r n l
    exact hf
  constructor
  · rcases step_cases w (.mediaResolved id) with h | h | h <;> rw [h]
    · simp [teardown, effectCleanup]
    · have hs : (handle w (.mediaResolved id)).state = w.state := by
        rcases ho with ho | ho
        · simp only [handle, mediaResolved, ho]
          simp [effectMediaResolved, newStream, hf2]
        · simp only [handle, mediaResolved, ho]
      rw [render_state_same _ _ (by rw [hs]), hs]
  · rcases step_cases w (.mediaRejected id) with h | h | h <;> rw [h]
    · simp [teardown, effectCleanup]
    · have hs : (handle w (.mediaRejected id)).state = w.state := by
        rcases ho with ho | ho
        · simp only [handle, mediaRejected, ho]
          simp [effectMediaRejected, hf2]
        · simp only [handle, mediaRejected, ho]
      rw [render_state_same _ _ (by rw [hs]), hs]

/-! ## How `isCameraActive` becomes true -/

theorem render_isCameraActive (p : Bool) (w : World) :
    (render p w).state.isCameraActive = w.state.isCameraActive := by
  rcases render_state p w with h | h <;> rw [h]

theorem render_pendingPlay (p : Bool) (w : World) :
    (render p w).pendingPlay = w.pendingPlay := by
  unfold render cameraEffect effectCleanup getUserMedia
  simp only
  split_ifs <;> simp

/-- Only two handlers turn `isCameraActive` on. -/
theorem handle_activates (w : World) (e : Event) (h0 : w.state.isCameraActive = false)
    (h1 : (handle w e).state.isCameraActive = true) :
    (e = .canPlay ∧ w.videoRef.isSome = true) ∨ ∃ v, e = .playResolved v ∧ v ∈ w.pendingPlay := by
  cases e <;> simp only [handle, toggleCamera, retryCamera, captureFrame, handleImageUpload,
    clearUploadedImage, mediaResolved, mediaRejected, loadedMetadata, effectMediaResolved,
    effectMediaRejected, retryMediaResolved, retryMediaRejected, effectLoadedMetadata,
    retryLoadedMetadata, playFulfilled, playFailed, videoOnError, videoOnCanPlay, timerCallback,
    readerOnload, getUserMedia, newStream] at h1 <;>
  (repeat' split at h1) <;> simp_all

/-- A `play()` promise is only created by a `loadedmetadata` handler. -/
theorem handle_pendingPlay (w : World) (e : Event) (v : Nat)
    (hv : v ∈ (handle w e).pendingPlay) :
    v ∈ w.pendingPlay ∨ ∃ u, e = .loadedMetadata u := by
  cases e <;> simp only [handle, toggleCamera, retryCamera, captureFrame, handleImageUpload,
    clearUploadedImage, mediaResolved, mediaRejected, loadedMetadata, effectMediaResolved,
    effectMediaRejected, retryMediaResolved, retryMediaRejected, effectLoadedMetadata,
    retryLoadedMetadata, playFulfilled, playFailed, videoOnError, videoOnCanPlay, timerCallback,
    readerOnload, getUserMedia, newStream] at hv <;>
  (repeat' split at hv) <;>
  first
  | exact Or.inl hv
  | exact Or.inr ⟨_, rfl⟩
  | exact Or.inl (List.mem_of_mem_erase hv)
  | (simp at hv; exact Or.inl hv)

theorem run_pendingPlay (es : List Event) (v : Nat) (hv : v ∈ (run init es).pendingPlay) :
    ∃ u, Event.loadedMetadata u ∈ es := by
  induction es using List.reverseRecOn with
  | nil =>
    have h0 : (run init []).pendingPlay = [] := rfl
    rw [h0] at hv
    cases hv
  | append_singleton es e ih =>
    rw [run_append] at hv
    have hprev : v ∈ (run init es).pendingPlay ∨ ∃ u, e = .loadedMetadata u := by
      rcases step_cases (run init es) e with h | h | h <;> rw [h] at hv
      · exact Or.inl hv
      · simp [teardown, effectCleanup] at hv
        exact Or.inl hv
      · rw [render_pendingPlay] at hv
        exact handle_pendingPlay _ e v hv
    rcases hprev with h | ⟨u, h⟩
    · obtain ⟨u, hu⟩ := ih h
      exact ⟨u, by simp [hu]⟩
    · exact ⟨u, by simp [h]⟩

/-! ## The mounted video element along a run -/

@[simp] theorem stopIfHeld_videos (h : Option Nat) (w : World) :
    (stopIfHeld h w).videos = w.videos := by
  cases h <;> rfl

@[simp] theorem stopIfHeld_canvas (h : Option Nat) (w : World) :
    (stopIfHeld h w).canvas = w.canvas := by
  cases h <;> rfl

@[simp] theorem stopIfHeld_readers (h : Option Nat) (w : World) :
    (stopIfHeld h w).readers = w.readers := by
  cases h <;> rfl

@[simp] theorem stopIfHeld_timers (h : Option Nat) (w : World) :
    (stopIfHeld h w).timers = w.timers := by
  cases h <;> rfl

@[simp] theorem stopIfHeld_mounted (h : Option Nat) (w : World) :
    (stopIfHeld h w).mounted = w.mounted := by
  cases h <;> rfl

@[simp] theorem bindVideo_videoRef (s : Nat) (o : Origin) (w : World) :
    (bindVideo s o w).videoRef = w.videoRef := by
  unfold bindVideo; split <;> rfl

@[simp] theorem bindVideo_videos_length (s : Nat) (o : Origin) (w : World) :
    (bindVideo s o w).videos.length = w.videos.length := by
  unfold bindVideo; split <;> (try simp)

@[simp] theorem callPlay_videoRef (w : World) : (callPlay w).videoRef = w.videoRef := by
  unfold callPlay; split <;> rfl

@[simp] theorem callPlay_videos (w : World) : (callPlay w).videos = w.videos := by
  unfold callPlay; split <;> rfl

theorem handle_videoRef (w : World) (e : Event) : (handle w e).videoRef = w.videoRef := by
  cases e <;> simp only [handle, toggleCamera, retryCamera, captureFrame, handleImageUpload,
    clearUploadedImage, mediaResolved, mediaRejected, loadedMetadata, effectMediaResolved,
    effectMediaRejected, retryMediaResolved, retryMediaRejected, effectLoadedMetadata,
    retryLoadedMetadata, playFulfilled, playFailed, videoOnError, videoOnCanPlay, timerCallback,
    readerOnload, getUserMedia, newStream] <;>
  (repeat' split) <;> simp

theorem handle_videos_length (w : World) (e : Event) :
    (handle w e).videos.length = w.videos.length := by
  cases e <;> simp only [handle, toggleCamera, retryCamera, captureFrame, handleImageUpload,
    clearUploadedImage, mediaResolved, mediaRejected, loadedMetadata, effectMediaResolved,
    effectMediaRejected, retryMediaResolved, retryMediaRejected, effectLoadedMetadata,
    retryLoadedMetadata, playFulfilled, playFailed, videoOnError, videoOnCanPlay, timerCallback,
    readerOnload, getUserMedia, newStream] <;>
  (repeat' split) <;> simp

/-- A step on an unmounted component does nothing; on a mounted one it tears
the component down or runs a handler and renders. -/
theorem step_cases_mounted (w : World) (e : Event) :
    (w.mounted = false ∧ step w e = w) ∨
      (w.mounted = true ∧
        (step w e = teardown w ∨ step w e = render w.state.isCameraEnabled (handle w e))) := by
  unfold step
  cases hm : w.mounted
  · exact Or.inl ⟨rfl, by simp⟩
  · right
    refine ⟨rfl, ?_⟩
    cases e <;> simp

/-- A commit leaves the DOM in agreement with the render. -/
theorem commitVideo_committed (w : World) (h : ∀ v, w.videoRef = some v → v < w.videos.length) :
    videoCommitted (commitVideo w) := by
  unfold commitVideo videoCommitted
  split_ifs with hs
  · split
    next v hv => exact ⟨by simp [hv, hs], h⟩
    next hv => exact ⟨by simp [hs], by simp⟩
  · exact ⟨by simp [hs], by simp⟩

/-- A commit changes nothing when the DOM already agrees with the render. -/
theorem commitVideo_of_committed (w : World) (h : videoCommitted w) : commitVideo w = w := by
  unfold commitVideo
  obtain ⟨h1, -⟩ := h
  split_ifs with hs
  · rw [hs] at h1
    split
    next => rfl
    next hv => rw [hv] at h1; cases h1
  · have hn : w.videoRef = none := by
      cases hv : w.videoRef with
      | none => rfl
      | some v => rw [hv] at h1; simp at h1; exact absurd h1 hs
    cases w
    simp_all

theorem render_committed (p : Bool) (w : World)
    (h : ∀ v, w.videoRef = some v → v < w.videos.length) : videoCommitted (render p w) := by
  have hc := commitVideo_committed w h
  unfold render
  simp only
  split_ifs
  · unfold videoCommitted at *
    unfold cameraEffect effectCleanup getUserMedia videoShown at *
    simp only
    split_ifs <;> simpa using hc
  · exact hc

theorem step_committed (w : World) (e : Event) (h : w.mounted = true → videoCommitted w) :
    (step w e).mounted = true → videoCommitted (step w e) := by
  intro hm
  rcases step_cases_mounted w e with ⟨-, hs⟩ | ⟨hm2, hs | hs⟩ <;> rw [hs] at hm ⊢
  · exact h hm
  · simp [teardown, effectCleanup] at hm
  · apply render_committed
    rw [handle_videoRef, handle_videos_length]
    exact (h hm2).2

/-- In every reachable state of the mounted component the DOM agrees with the render. -/
theorem run_committed (es : List Event) :
    (run init es).mounted = true → videoCommitted (run init es) := by
  induction es using List.reverseRecOn with
  | nil =>
    intro _
    exact ⟨rfl, fun v hv => by cases hv⟩
  | append_singleton es e ih =>
    rw [run_append]
    exact step_committed _ e ih

/-- On a mounted component whose DOM agrees with the render, an event that is not
the unmount and leaves `isCameraEnabled` and `activeTab` alone is just its handler. -/
theorem step_eq_handle (w : World) (e : Event) (hm : w.mounted = true)
    (hc : videoCommitted w) (he : e ≠ .unmount)
    (h1 : (handle w e).state.isCameraEnabled = w.state.isCameraEnabled)
    (h2 : (handle w e).state.activeTab = w.state.activeTab) :
    step w e = handle w e := by
  have hs : step w e = render w.state.isCameraEnabled (handle w e) := by
    unfold step
    cases e <;> simp [hm] at he ⊢
  rw [hs, ← h1, render_same]
  apply commitVideo_of_committed
  unfold videoCommitted videoShown at *
  rw [handle_videoRef, handle_videos_length, h1, h2]
  exact hc

@[simp] theorem bindVideo_mounted (s : Nat) (o : Origin) (w : World) :
    (bindVideo s o w).mounted = w.mounted := by
  unfold bindVideo; split <;> rfl

@[simp] theorem callPlay_mounted (w : World) : (callPlay w).mounted = w.mounted := by
  unfold callPlay; split <;> rfl

theorem handle_mounted (w : World) (e : Event) : (handle w e).mounted = w.mounted := by
  cases e <;> simp only [handle, toggleCamera, retryCamera, captureFrame, handleImageUpload,
    clearUploadedImage, mediaResolved, mediaRejected, loadedMetadata, effectMediaResolved,
    effectMediaRejected, retryMediaResolved, retryMediaRejected, effectLoadedMetadata,
    retryLoadedMetadata, playFulfilled, playFailed, videoOnError, videoOnCanPlay, timerCallback,
    readerOnload, getUserMedia, newStream] <;>
  (repeat' split) <;> simp

/-- The form of `step_eq_handle` that also hands the invariants to the next state. -/
theorem step_handle_next (w : World) (e : Event) (hm : w.mounted = true)
    (hc : videoCommitted w) (he : e ≠ .unmount)
    (h1 : (handle w e).state.isCameraEnabled = w.state.isCameraEnabled)
    (h2 : (handle w e).state.activeTab = w.state.activeTab) :
    step w e = handle w e ∧ (handle w e).mounted = true ∧ videoCommitted (handle w e) := by
  refine ⟨step_eq_handle w e hm hc he h1 h2, by rw [handle_mounted]; exact hm, ?_⟩
  unfold videoCommitted videoShown at *
  rw [handle_videoRef, handle_videos_length, h1, h2]
  exact hc

/-- A pending retry request that resolves while the video element is mounted:
the stream is bound, `loadedmetadata` calls `play()`, and the settlement of
`play()` sets `isCameraActive` or `cameraError`. -/
theorem retry_resolved_path (w : World) (n v : Nat) (hm : w.mounted = true)
    (hc : videoCommitted w) (hv : w.videoRef = some v)
    (hreq : w.requests.getD n none = some .retry) :
    (run w [.mediaResolved n, .loadedMetadata v, .playResolved v]).state.isCameraActive = true ∧
      (run w [.mediaResolved n, .loadedMetadata v, .playRejected v]).state.cameraError
        = some playbackError := by
  have hvlt : v < w.videos.length := hc.2 v hv
  -- the request resolves
  have hh1 : handle w (.mediaResolved n) =
      { w with
        requests := w.requests.set n none
        nextStream := w.nextStream + 1
        live := w.live ++ [w.nextStream]
        state := { w.state with stream := some w.nextStream }
        videos := w.videos.set v ⟨some w.nextStream, some .retry⟩ } := by
    simp only [handle, mediaResolved, hreq, retryMediaResolved, newStream, bindVideo, hv]
  obtain ⟨s1, m1, c1⟩ := step_handle_next w (.mediaResolved n) hm hc (by simp)
    (by rw [hh1]) (by rw [hh1])
  have hg : (handle w (.mediaResolved n)).videos.getD v ⟨none, none⟩ =
      ⟨some w.nextStream, some .retry⟩ := by
    rw [hh1]
    simp [List.getD_eq_getElem?_getD, hvlt]
  have hr : (handle w (.mediaResolved n)).videoRef = some v := by
    rw [handle_videoRef]; exact hv
  clear hh1
  generalize handle w (.mediaResolved n) = w2 at *
  -- the element fires `loadedmetadata`
  have hh2 : handle w2 (.loadedMetadata v) = { w2 with pendingPlay := w2.pendingPlay ++ [v] } := by
    simp only [handle, loadedMetadata, hg, retryLoadedMetadata, callPlay, hr]
  obtain ⟨s2, m2, c2⟩ := step_handle_next _ (.loadedMetadata v) m1 c1 (by simp)
    (by rw [hh2]) (by rw [hh2])
  have hmem : v ∈ (handle w2 (.loadedMetadata v)).pendingPlay := by
    rw [hh2]; simp
  clear hh2
  generalize handle w2 (.loadedMetadata v) = w3 at *
  -- `play()` settles
  constructor
  · have hh3 : (handle w3 (.playResolved v)).state = { w3.state with isCameraActive := true } := by
      simp only [handle, hmem, if_true, playFulfilled]
    have s3 := (step_handle_next _ (.playResolved v) m2 c2 (by simp)
      (by rw [hh3]) (by rw [hh3])).1
    simp only [run, List.foldl_cons, List.foldl_nil, s1, s2, s3, hh3]
  · have hh3 : (handle w3 (.playRejected v)).state =
        { w3.state with cameraError := some playbackError } := by
      simp only [handle, hmem, if_true, playFailed]
    have s3 := (step_handle_next _ (.playRejected v) m2 c2 (by simp)
      (by rw [hh3]) (by rw [hh3])).1
    simp only [run, List.foldl_cons, List.foldl_nil, s1, s2, s3, hh3]

/-! ## Disabling, capturing and uploading -/

theorem stopIfHeld_live_subset (h : Option Nat) (w : World) (s : Nat)
    (hs : s ∈ (stopIfHeld h w).live) : s ∈ w.live := by
  cases h with
  | none => exact hs
  | some t =>
    simp only [stopIfHeld, stopTracks] at hs
    exact List.mem_of_mem_filter hs

@[simp] theorem commitVideo_canvas (w : World) : (commitVideo w).canvas = w.canvas := by
  unfold commitVideo
  split_ifs
  · split <;> rfl
  · rfl

@[simp] theorem commitVideo_readers (w : World) : (commitVideo w).readers = w.readers := by
  unfold commitVideo
  split_ifs
  · split <;> rfl
  · rfl

@[simp] theorem commitVideo_timers (w : World) : (commitVideo w).timers = w.timers := by
  unfold commitVideo
  split_ifs
  · split <;> rfl
  · rfl

@[simp] theorem commitVideo_mounted (w : World) : (commitVideo w).mounted = w.mounted := by
  unfold commitVideo
  split_ifs
  · split <;> rfl
  · rfl

/-- The step of a click on the toggle while the camera is enabled. -/
theorem step_disable (w : World) (hm : w.mounted = true) (htab : w.state.activeTab = .camera)
    (hen : w.state.isCameraEnabled = true) :
    step w .clickToggle = cameraEffect (effectCleanup (commitVideo (toggleCamera w))) := by
  simp [step, hm, handle, htab, render, toggleCamera, hen]

/-- A click on `Capture` or `Retake` in an Active state with the video element
mounted runs `captureFrame`. -/
theorem step_capture (w : World) (video : VideoFrame) (e : Event)
    (he : e = .clickCapture video ∨ e = .clickRetake video)
    (hm : w.mounted = true) (hc : videoCommitted w)
    (htab : w.state.activeTab = .camera) (hen : w.state.isCameraEnabled = true)
    (hact : w.state.isCameraActive = true) :
    step w e = { w with
      canvas := drawFrame video
      state := { w.state with capturedImage := some (toDataURL (drawFrame video)) }
      timers := w.timers + 1 } := by
  obtain ⟨v, hv⟩ : ∃ v, w.videoRef = some v := by
    have h := hc.1
    simp [videoShown, htab, hen] at h
    exact Option.isSome_iff_exists.mp h
  have hh : handle w e = { w with
      canvas := drawFrame video
      state := { w.state with capturedImage := some (toDataURL (drawFrame video)) }
      timers := w.timers + 1 } := by
    rcases he with he | he <;> subst he <;>
      simp [handle, htab, hen, hact, captureFrame, hv]
  have hne : e ≠ .unmount := by
    rcases he with he | he <;> subst he <;> simp
  rw [step_eq_handle w e hm hc hne (by rw [hh]) (by rw [hh]), hh]

/-- A click on `Capture` or `Retake` while the camera is disabled finds no video
element and changes nothing. -/
theorem step_capture_disabled (w : World) (video : VideoFrame) (e : Event)
    (he : e = .clickCapture video ∨ e = .clickRetake video)
    (hm : w.mounted = true) (hc : videoCommitted w)
    (hen : w.state.isCameraEnabled = false) :
    step w e = w := by
  have hv : w.videoRef = none := by
    have h := hc.1
    simp [videoShown, hen] at h
    exact h
  have hh : handle w e = w := by
    rcases he with he | he <;> subst he <;>
      simp [handle, hen, captureFrame, hv]
  have hne : e ≠ .unmount := by
    rcases he with he | he <;> subst he <;> simp
  rw [step_eq_handle w e hm hc hne (by rw [hh]) (by rw [hh]), hh]

/-- The canvas of `drawFrame` has the size of the video when both dimensions are
in the range of the canvas attributes, and its data URL is then a PNG unless a
dimension is 0. -/
theorem drawFrame_in_range (video : VideoFrame)
    (hw : video.videoWidth ≤ 2147483647) (hh : video.videoHeight ≤ 2147483647) :
    (drawFrame video).width = video.videoWidth ∧
      (drawFrame video).height = video.videoHeight ∧
      (0 < video.videoWidth → 0 < video.videoHeight →
        toDataURL (drawFrame video) =
          .png video.videoWidth video.videoHeight (drawFrame video).pixels) := by
  have e1 : (drawFrame video).width = video.videoWidth := by
    simp [drawFrame, canvasAttribute, hw]
  have e2 : (drawFrame video).height = video.videoHeight := by
    simp [drawFrame, canvasAttribute, hh]
  refine ⟨e1, e2, fun h1 h2 => ?_⟩
  unfold toDataURL
  rw [e1, e2, if_neg (by omega)]

/-- The step of an event that is not the unmount, on a mounted component, when
the handler leaves `isCameraEnabled` alone: only the DOM commit follows. -/
theorem step_eq_commit (w : World) (e : Event) (hm : w.mounted = true) (he : e ≠ .unmount)
    (h1 : (handle w e).state.isCameraEnabled = w.state.isCameraEnabled) :
    step w e = commitVideo (handle w e) := by
  have hs : step w e = render w.state.isCameraEnabled (handle w e) := by
    unfold step
    cases e <;> simp [hm] at he ⊢
  rw [hs, ← h1, render_same]

/-! ## How `cameraError` changes -/

/-- A handler keeps `cameraError`, clears it, or is a failure handler setting its message. -/
theorem handle_cameraError (w : World) (e : Event) :
    (handle w e).state.cameraError = w.state.cameraError ∨
      (handle w e).state.cameraError = none ∨
      (acquisitionFails w e = true ∧
        (handle w e).state.cameraError = some (failureMessage e)) := by
  cases e <;> simp only [handle, toggleCamera, retryCamera, captureFrame, handleImageUpload,
    clearUploadedImage, mediaResolved, mediaRejected, loadedMetadata, effectMediaResolved,
    effectMediaRejected, retryMediaResolved, retryMediaRejected, effectLoadedMetadata,
    retryLoadedMetadata, playFulfilled, playFailed, videoOnError, videoOnCanPlay, timerCallback,
    readerOnload, getUserMedia, newStream, acquisitionFails, failureMessage] <;>
  (repeat' split) <;> simp_all [isMountedFlag]

theorem step_cameraError (w : World) (e : Event) :
    (step w e).state.cameraError = w.state.cameraError ∨
      (step w e).state.cameraError = none ∨
      (acquisitionFails w e = true ∧
        (step w e).state.cameraError = some (failureMessage e)) := by
  rcases step_cases w e with h | h | h <;> rw [h]
  · exact Or.inl rfl
  · left; simp [teardown, effectCleanup]
  · rcases render_state w.state.isCameraEnabled (handle w e) with hr | hr <;> rw [hr]
    · exact handle_cameraError w e
    · exact Or.inr (Or.inl rfl)

theorem run_cameraError (es : List Event) :
    (run init es).state.cameraError = none ∨
      (run init es).state.cameraError = some accessError ∨
      (run init es).state.cameraError = some playbackError := by
  induction es using List.reverseRecOn with
  | nil => exact Or.inl rfl
  | append_singleton es e ih =>
    rw [run_append]
    rcases step_cameraError (run init es) e with h | h | ⟨-, h⟩
    · rw [h]; exact ih
    · exact Or.inl h
    · rw [h]
      cases e <;> simp [failureMessage]

/-- Only the toggle changes `isCameraEnabled`. -/
theorem handle_isCameraEnabled (w : World) (e : Event) (he : e ≠ .clickToggle) :
    (handle w e).state.isCameraEnabled = w.state.isCameraEnabled := by
  cases e <;> simp only [handle, toggleCamera, retryCamera, captureFrame, handleImageUpload,
    clearUploadedImage, mediaResolved, mediaRejected, loadedMetadata, effectMediaResolved,
    effectMediaRejected, retryMediaResolved, retryMediaRejected, effectLoadedMetadata,
    retryLoadedMetadata, playFulfilled, playFailed, videoOnError, videoOnCanPlay, timerCallback,
    readerOnload, getUserMedia, newStream] <;>
  (repeat' split) <;> simp_all

/-- A handler keeps `cameraError`, clears it (only those of the toggle and of
`Retry Camera` do), or is a failure handler setting its message. -/
theorem handle_cameraError_by (w : World) (e : Event) :
    (handle w e).state.cameraError = w.state.cameraError ∨
      ((e = .clickToggle ∨ e = .clickRetry) ∧ (handle w e).state.cameraError = none) ∨
      (acquisitionFails w e = true ∧
        (handle w e).state.cameraError = some (failureMessage e)) := by
  cases e <;> simp only [handle, toggleCamera, retryCamera, captureFrame, handleImageUpload,
    clearUploadedImage, mediaResolved, mediaRejected, loadedMetadata, effectMediaResolved,
    effectMediaRejected, retryMediaResolved, retryMediaRejected, effectLoadedMetadata,
    retryLoadedMetadata, playFulfilled, playFailed, videoOnError, videoOnCanPlay, timerCallback,
    readerOnload, getUserMedia, newStream, acquisitionFails, failureMessage] <;>
  (repeat' split) <;> simp_all [isMountedFlag]

theorem step_cameraError_by (w : World) (e : Event) :
    (step w e).state.cameraError = w.state.cameraError ∨
      ((e = .clickToggle ∨ e = .clickRetry) ∧ (step w e).state.cameraError = none) ∨
      (acquisitionFails w e = true ∧
        (step w e).state.cameraError = some (failureMessage e)) := by
  rcases step_cases w e with h | h | h <;> rw [h]
  · exact Or.inl rfl
  · left; simp [teardown, effectCleanup]
  · by_cases he : e = .clickToggle
    · rcases render_state w.state.isCameraEnabled (handle w e) with hr | hr <;> rw [hr]
      · exact handle_cameraError_by w e
      · exact Or.inr (Or.inl ⟨Or.inl he, rfl⟩)
    · rw [render_state_same _ _ (handle_isCameraEnabled w e he)]
      exact handle_cameraError_by w e

/-- The events that set `isCameraActive` to true leave `cameraError` as it is. -/
theorem step_canPlay_state (w : World) (hm : w.mounted = true) (hv : w.videoRef.isSome = true) :
    (step w .canPlay).state = { w.state with isCameraActive := true } := by
  have hs : step w .canPlay = render w.state.isCameraEnabled (videoOnCanPlay w) := by
    simp [step, hm, handle, hv]
  have he : (videoOnCanPlay w).state.isCameraEnabled = w.state.isCameraEnabled := rfl
  rw [hs, render_state_same _ (videoOnCanPlay w) he]
  rfl

theorem step_playResolved_state (w : World) (v : Nat) (hm : w.mounted = true)
    (hv : v ∈ w.pendingPlay) :
    (step w (.playResolved v)).state = { w.state with isCameraActive := true } := by
  have hs : step w (.playResolved v) =
      render w.state.isCameraEnabled
        (playFulfilled { w with pendingPlay := w.pendingPlay.erase v }) := by
    simp [step, hm, handle, hv]
  have he : (playFulfilled { w with pendingPlay := w.pendingPlay.erase v }).state.isCameraEnabled
      = w.state.isCameraEnabled := rfl
  rw [hs, render_state_same _ _ he]
  rfl

/-! ## The claims -/

/-- C1 (fails on the code): enabling, disabling and enabling again while the first
`getUserMedia` request is pending, then letting both requests resolve, leaves two
streams with un-stopped tracks: stream 0, handed to the cancelled effect run and
dropped without being stopped, and stream 1, stored in `stream`. -/
theorem cancelled_stream_and_held_stream_both_live :
    (run init [.clickToggle, .clickToggle, .clickToggle,
        .mediaResolved 0, .mediaResolved 1]).live = [0, 1] ∧
      (run init [.clickToggle, .clickToggle, .clickToggle,
        .mediaResolved 0, .mediaResolved 1]).state.stream = some 1 := by
  decide

/-- C2 (fails on the code): disabling while the effect's `initCamera` awaits
`getUserMedia` (request 0 is pending when the second click arrives) and then
resolving that request leaves the new stream 0 with its tracks un-stopped; it is
neither stored in `stream` nor bound to a video element. -/
theorem cancelled_stream_not_stopped :
    (run init [.clickToggle]).requests = [some (.effect 1)] ∧
      (run init [.clickToggle, .clickToggle, .mediaResolved 0]).live = [0] ∧
      (run init [.clickToggle, .clickToggle, .mediaResolved 0]).state.stream = none ∧
      (run init [.clickToggle, .clickToggle, .mediaResolved 0]).videos = [⟨none, none⟩] := by
  decide

/-- C3: in a reachable state where the camera is enabled and request `id` of the
current effect run is still pending, clicking the toggle disables the camera
(`isCameraEnabled` false, `isCameraActive` false, `cameraError` null), and from
then on, whatever events `es` come first, the completion of that request, by
resolution or by rejection, changes no state cell. -/
theorem cancelled_effect_completion_keeps_state (es0 : List Event) (id : Nat)
    (hm : (run init es0).mounted = true)
    (htab : (run init es0).state.activeTab = .camera)
    (hen : (run init es0).state.isCameraEnabled = true)
    (hreq : (run init es0).requests.getD id none = some (.effect (run init es0).effectRun)) :
    ((step (run init es0) .clickToggle).state.isCameraEnabled = false ∧
      (step (run init es0) .clickToggle).state.isCameraActive = false ∧
      (step (run init es0) .clickToggle).state.cameraError = none) ∧
    ∀ es : List Event,
      (step (run (step (run init es0) .clickToggle) es) (.mediaResolved id)).state =
          (run (step (run init es0) .clickToggle) es).state ∧
        (step (run (step (run init es0) .clickToggle) es) (.mediaRejected id)).state =
          (run (step (run init es0) .clickToggle) es).state := by
  have hlt := run_effectRun_lt es0
  generalize run init es0 = w at *
  have hid : id < w.requests.length := by
    by_contra hcon
    rw [List.getD_eq_default _ _ (by omega)] at hreq
    cases hreq
  have hstep : step w .clickToggle =
      cameraEffect (effectCleanup (commitVideo (toggleCamera w))) := by
    simp [step, hm, handle, htab, render, toggleCamera, hen]
  have hstate : (step w .clickToggle).state =
      { w.state with stream := none, isCameraActive := false, cameraError := none,
                     isCameraEnabled := false } := by
    rw [hstep]
    simp [cameraEffect, effectCleanup, toggleCamera, hen]
  have hflags : (step w .clickToggle).isMounted = w.isMounted.set w.effectRun false ++ [true] := by
    rw [hstep]
    simp [cameraEffect, effectCleanup, toggleCamera, hen, getUserMedia]
  have hreqs : (step w .clickToggle).requests = w.requests := by
    rw [hstep]
    simp [cameraEffect, effectCleanup, toggleCamera, hen, getUserMedia]
  refine ⟨by rw [hstate]; simp, fun es => ?_⟩
  have hc := run_cancelled (step w .clickToggle) w.effectRun id es
    (by rw [hflags]; simp; omega)
    (by
      unfold isMountedFlag
      rw [hflags, getD_append_lt _ _ _ _ (by simpa using hlt)]
      simp [List.getD_eq_getElem?_getD, List.getElem?_set, hlt])
    (by rw [hreqs]; exact hid)
    (by rw [hreqs]; exact Or.inl hreq)
  exact cancelled_completion _ w.effectRun id hc.1.2 hc.2.2


/-- Witness for C3: enable, then disable with request 0 pending, then enable
again before request 0 completes. -/
theorem cancelled_effect_completion_keeps_state_witness :
    (run init [.clickToggle]).requests.getD 0 none =
        some (.effect (run init [.clickToggle]).effectRun) ∧
      (step (run (step (run init [.clickToggle]) .clickToggle) [.clickToggle])
          (.mediaResolved 0)).state =
        (run (step (run init [.clickToggle]) .clickToggle) [.clickToggle]).state :=
  ⟨by decide,
    ((cancelled_effect_completion_keeps_state [.clickToggle] 0
      (by decide) (by decide) (by decide) (by decide)).2 [.clickToggle]).1⟩

/-- C4 (fails on the code): after a failed acquisition, `Retry Camera` starts request
1; the camera is disabled while it is pending; when it resolves, the completion
still runs `setStream`: the state, `Disabled` before, now holds stream 0, whose
tracks are live. -/
theorem retry_completion_after_disable_stores_stream :
    (run init [.clickToggle, .mediaRejected 0, .clickRetry, .clickToggle]).requests.getD 1 none
        = some .retry ∧
      (run init [.clickToggle, .mediaRejected 0, .clickRetry, .clickToggle]).state.stream
        = none ∧
      (run init [.clickToggle, .mediaRejected 0, .clickRetry, .clickToggle,
        .mediaResolved 1]).state.isCameraEnabled = false ∧
      (run init [.clickToggle, .mediaRejected 0, .clickRetry, .clickToggle,
        .mediaResolved 1]).state.stream = some 0 ∧
      (run init [.clickToggle, .mediaRejected 0, .clickRetry, .clickToggle,
        .mediaResolved 1]).live = [0] := by
  decide

/-- C5 (fails on the code): right after enabling, `isCameraActive` is false and the
`Retake` button is rendered and not disabled; clicking it while the video has no
frame yet sets `capturedImage` to the data URL of an empty canvas and schedules
a confidence update. -/
theorem retake_while_inactive_captures :
    (run init [.clickToggle]).state.isCameraActive = false ∧
      (run init [.clickToggle]).state.capturedImage = none ∧
      (run init [.clickToggle]).timers = 0 ∧
      (run init [.clickToggle, .clickRetake ⟨0, 0, none⟩]).state.capturedImage
        = some .empty ∧
      (run init [.clickToggle, .clickRetake ⟨0, 0, none⟩]).timers = 1 := by
  decide

/-- C6: the initial confidence is 87; an event either keeps the confidence or
assigns `Math.floor(Math.random() * 20) + 80` for a double `Math.random()` in
`[0, 1)`; every such value lies within 80 and 99; hence the confidence lies
within 80 and 99 after every sequence of events. -/
theorem confidence_in_range :
    init.state.confidence = 87 ∧
      (∀ (w : World) (e : Event),
        (step w e).state.confidence = w.state.confidence ∨
          ∃ r : UnitDouble, (step w e).state.confidence = randomConfidence r) ∧
      (∀ r : UnitDouble, 80 ≤ randomConfidence r ∧ randomConfidence r ≤ 99) ∧
      ∀ es : List Event,
        80 ≤ (run init es).state.confidence ∧ (run init es).state.confidence ≤ 99 :=
  ⟨rfl, step_confidence, randomConfidence_range, confidence_range_run⟩

/-- C7 as stated fails: after enable, stream and `loadedmetadata`, the handler has
called `play()` and the promise is still pending when `canplay` fires; the
`onCanPlay` prop sets `isCameraActive` to true although `play()` has not resolved. -/
theorem canplay_activates_before_play_resolves :
    (run init [.clickToggle, .mediaResolved 0, .loadedMetadata 0]).state.isCameraActive
        = false ∧
      (run init [.clickToggle, .mediaResolved 0, .loadedMetadata 0, .canPlay]).pendingPlay
        = [0] ∧
      (run init [.clickToggle, .mediaResolved 0, .loadedMetadata 0,
        .canPlay]).state.isCameraActive = true := by
  decide

/-- C7 amended: in a run from the initial state, an event turns `isCameraActive`
from false to true only if it is the `canplay` notification of the mounted video
element, or the resolution of a pending `play()` promise, in which case a
`loadedmetadata` notification has occurred earlier in the run. -/
theorem active_only_by_canplay_or_play (es : List Event) (e : Event)
    (h0 : (run init es).state.isCameraActive = false)
    (h1 : (step (run init es) e).state.isCameraActive = true) :
    (e = .canPlay ∧ (run init es).videoRef.isSome = true) ∨
      ∃ v, e = .playResolved v ∧ v ∈ (run init es).pendingPlay ∧
        ∃ u, Event.loadedMetadata u ∈ es := by
  have hh : (handle (run init es) e).state.isCameraActive = true := by
    rcases step_cases (run init es) e with h | h | h <;> rw [h] at h1
    · rw [h0] at h1; cases h1
    · simp [teardown, effectCleanup, h0] at h1
    · rwa [render_isCameraActive] at h1
  rcases handle_activates _ e h0 hh with h | ⟨v, hv, hmem⟩
  · exact Or.inl h
  · exact Or.inr ⟨v, hv, hmem, run_pendingPlay es v hmem⟩


/-- Witness for C7 amended: the resolution of `play()` after `loadedmetadata`. -/
theorem active_only_by_canplay_or_play_witness :
    (run init [.clickToggle, .mediaResolved 0, .loadedMetadata 0]).state.isCameraActive
        = false ∧
      (step (run init [.clickToggle, .mediaResolved 0, .loadedMetadata 0])
        (.playResolved 0)).state.isCameraActive = true ∧
      ((Event.playResolved 0 = .canPlay ∧
          (run init [.clickToggle, .mediaResolved 0, .loadedMetadata 0]).videoRef.isSome
            = true) ∨
        ∃ v, Event.playResolved 0 = .playResolved v ∧
          v ∈ (run init [.clickToggle, .mediaResolved 0, .loadedMetadata 0]).pendingPlay ∧
          ∃ u, Event.loadedMetadata u ∈
            [Event.clickToggle, .mediaResolved 0, .loadedMetadata 0]) :=
  ⟨by decide, by decide,
    active_only_by_canplay_or_play [.clickToggle, .mediaResolved 0, .loadedMetadata 0]
      (.playResolved 0) (by decide) (by decide)⟩

/-- C8 as stated fails: when `play()` rejects after a stream was obtained,
`cameraError` is set but stream 0 stays stored and its tracks stay live. -/
theorem play_failure_keeps_stream_live :
    (run init [.clickToggle, .mediaResolved 0, .loadedMetadata 0,
        .playRejected 0]).state.cameraError = some playbackError ∧
      (run init [.clickToggle, .mediaResolved 0, .loadedMetadata 0,
        .playRejected 0]).state.stream = some 0 ∧
      (run init [.clickToggle, .mediaResolved 0, .loadedMetadata 0,
        .playRejected 0]).live = [0] := by
  decide

/-- C8 amended: for every acquisition failure of an attempt that is not cancelled
(`getUserMedia` rejecting in the enable path or the retry path, or `play()`
rejecting), the resulting state is the previous one with `cameraError` set to a
non-empty message; no other state cell changes, no track is stopped and no
stream is created, so a stream obtained earlier stays stored and live. -/
theorem failure_sets_error_only (w : World) (e : Event) (hm : w.mounted = true)
    (hf : acquisitionFails w e = true) :
    (step w e).state = { w.state with cameraError := some (failureMessage e) } ∧
      failureMessage e ≠ "" ∧ (step w e).live = w.live ∧
      (step w e).nextStream = w.nextStream := by
  have key : ∀ w1 : World, w1.state.isCameraEnabled = w.state.isCameraEnabled →
      (render w.state.isCameraEnabled w1).state = w1.state ∧
      (render w.state.isCameraEnabled w1).live = w1.live ∧
      (render w.state.isCameraEnabled w1).nextStream = w1.nextStream := by
    intro w1 h1
    rw [← h1, render_same]
    refine ⟨commitVideo_state _, commitVideo_live _, ?_⟩
    unfold commitVideo
    split_ifs
    · split <;> rfl
    · rfl
  cases e <;> simp only [acquisitionFails, Bool.false_eq_true] at hf
  case mediaRejected id =>
    have hs : step w (.mediaRejected id) =
        render w.state.isCameraEnabled (mediaRejected id w) := by
      simp [step, hm, handle]
    rw [hs]
    unfold mediaRejected
    split at hf
    next run ho =>
      have hf2 : isMountedFlag { w with requests := w.requests.set id none } run = true := hf
      simp only [ho, effectMediaRejected, hf2, if_true]
      obtain ⟨k1, k2, k3⟩ := key { w with
        requests := w.requests.set id none
        state := { w.state with cameraError := some accessError } } rfl
      exact ⟨k1, by show accessError ≠ ""; decide, k2, k3⟩
    next ho =>
      simp only [ho, retryMediaRejected]
      obtain ⟨k1, k2, k3⟩ := key { w with
        requests := w.requests.set id none
        state := { w.state with cameraError := some accessError } } rfl
      exact ⟨k1, by show accessError ≠ ""; decide, k2, k3⟩
    next => cases hf
  case playRejected v =>
    have hv : v ∈ w.pendingPlay := by simpa using hf
    have hs : step w (.playRejected v) =
        render w.state.isCameraEnabled (playFailed { w with pendingPlay := w.pendingPlay.erase v }) := by
      simp [step, hm, handle, hv]
    rw [hs]
    obtain ⟨k1, k2, k3⟩ := key (playFailed { w with pendingPlay := w.pendingPlay.erase v }) rfl
    exact ⟨k1, by show playbackError ≠ ""; decide, k2, k3⟩


/-- Witness for C8 amended: `getUserMedia` rejecting in the enable path. -/
theorem failure_sets_error_only_witness :
    (run init [.clickToggle]).mounted = true ∧
      acquisitionFails (run init [.clickToggle]) (.mediaRejected 0) = true ∧
      (step (run init [.clickToggle]) (.mediaRejected 0)).state =
        { (run init [.clickToggle]).state with
          cameraError := some (failureMessage (.mediaRejected 0)) } :=
  ⟨by decide, by decide,
    (failure_sets_error_only (run init [.clickToggle]) (.mediaRejected 0)
      (by decide) (by decide)).1⟩

/-- C9 as stated fails: in the Active state reached by enable, stream,
`loadedmetadata` and `play()` resolving, a video error leaves `cameraError` null
and stream 0 stored with its tracks live. -/
theorem video_error_sets_no_error :
    (run init [.clickToggle, .mediaResolved 0, .loadedMetadata 0,
        .playResolved 0]).state.isCameraActive = true ∧
      (run init [.clickToggle, .mediaResolved 0, .loadedMetadata 0, .playResolved 0,
        .videoError]).state.cameraError = none ∧
      (run init [.clickToggle, .mediaResolved 0, .loadedMetadata 0, .playResolved 0,
        .videoError]).state.stream = some 0 ∧
      (run init [.clickToggle, .mediaResolved 0, .loadedMetadata 0, .playResolved 0,
        .videoError]).live = [0] := by
  decide

/-- C9 amended: when the mounted video element raises an error (in particular
while the status is Active), `isCameraActive` becomes false, the stream stays
stored and no track is stopped. -/
theorem video_error_deactivates_only (w : World) (hm : w.mounted = true) (hv : w.videoRef.isSome = true) :
    (step w .videoError).state.isCameraActive = false ∧
      (step w .videoError).state.stream = w.state.stream ∧
      (step w .videoError).live = w.live := by
  have hs : step w .videoError = render w.state.isCameraEnabled (videoOnError w) := by
    simp [step, hm, handle, hv]
  have he : (videoOnError w).state.isCameraEnabled = w.state.isCameraEnabled := rfl
  rw [hs, render_state_same _ _ he, render_live_same _ _ he]
  exact ⟨rfl, rfl, rfl⟩


/-- Witness for C9 amended: a video error in the Active state. -/
theorem video_error_deactivates_only_witness :
    (run init [.clickToggle, .mediaResolved 0, .loadedMetadata 0,
        .playResolved 0]).state.isCameraActive = true ∧
      (step (run init [.clickToggle, .mediaResolved 0, .loadedMetadata 0, .playResolved 0])
        .videoError).state.isCameraActive = false ∧
      (step (run init [.clickToggle, .mediaResolved 0, .loadedMetadata 0, .playResolved 0])
        .videoError).state.stream =
        (run init [.clickToggle, .mediaResolved 0, .loadedMetadata 0,
          .playResolved 0]).state.stream ∧
      (step (run init [.clickToggle, .mediaResolved 0, .loadedMetadata 0, .playResolved 0])
        .videoError).live =
        (run init [.clickToggle, .mediaResolved 0, .loadedMetadata 0, .playResolved 0]).live :=
  ⟨by decide,
    video_error_deactivates_only
      (run init [.clickToggle, .mediaResolved 0, .loadedMetadata 0, .playResolved 0])
      (by decide) (by decide)⟩

/-- C10 (fails on the code): with stream 0 acquired and stored by the camera effect,
the cleanup closure of that effect run still holds the `stream` of the render in
which the effect ran, which is null; unmounting stops nothing and stream 0 stays
live. -/
theorem teardown_leaves_stream_live :
    (run init [.clickToggle, .mediaResolved 0]).state.stream = some 0 ∧
      (run init [.clickToggle, .mediaResolved 0]).cleanupStream = none ∧
      (run init [.clickToggle, .mediaResolved 0, .unmount]).mounted = false ∧
      (run init [.clickToggle, .mediaResolved 0, .unmount]).live = [0] := by
  decide

/-- C11 as stated fails: when `play()` rejects and the video element then fires
`canplay`, `cameraError` holds the playback message while `isCameraActive` is
true. -/
theorem error_kept_while_active :
    (run init [.clickToggle, .mediaResolved 0, .loadedMetadata 0, .playRejected 0,
        .canPlay]).state.cameraError = some playbackError ∧
      (run init [.clickToggle, .mediaResolved 0, .loadedMetadata 0, .playRejected 0,
        .canPlay]).state.isCameraActive = true ∧
      (run init [.clickToggle, .mediaResolved 0, .loadedMetadata 0, .playRejected 0,
        .canPlay]).state.isCameraEnabled = true := by
  decide

/-- C11 amended: `cameraError` is null initially. An event keeps it, or is a click on
the toggle or on `Retry Camera` and clears it, or is an acquisition failure whose
handler sets it to the failure message. The two events that set
`isCameraActive` to true, `canplay` on the mounted video element and the
resolution of a pending `play()`, change no other state cell, so they do not
clear it. Every effective click on the toggle and on `Retry Camera` leaves it
null, and in every reachable state it is null or one of the two failure
messages. -/
theorem cameraError_set_only_by_failure (w : World) (e : Event) :
    init.state.cameraError = none ∧
    ((step w e).state.cameraError = w.state.cameraError ∨
      ((e = .clickToggle ∨ e = .clickRetry) ∧ (step w e).state.cameraError = none) ∨
      (acquisitionFails w e = true ∧
        (step w e).state.cameraError = some (failureMessage e))) ∧
    (w.mounted = true → w.videoRef.isSome = true →
      (step w .canPlay).state = { w.state with isCameraActive := true }) ∧
    (∀ v, w.mounted = true → v ∈ w.pendingPlay →
      (step w (.playResolved v)).state = { w.state with isCameraActive := true }) ∧
    (w.mounted = true → w.state.activeTab = .camera →
      (step w .clickToggle).state.cameraError = none) ∧
    (w.mounted = true → w.state.activeTab = .camera → w.state.isCameraEnabled = true →
      w.state.isCameraActive = false → truthy w.state.cameraError = true →
      (step w .clickRetry).state.cameraError = none) ∧
    ∀ es : List Event,
      (run init es).state.cameraError = none ∨
        (run init es).state.cameraError = some accessError ∨
        (run init es).state.cameraError = some playbackError := by
  refine ⟨rfl, step_cameraError_by w e, step_canPlay_state w,
    fun v => step_playResolved_state w v, ?_, ?_, run_cameraError⟩
  · intro hm htab
    cases hen : w.state.isCameraEnabled <;>
      simp [step, hm, handle, htab, render, toggleCamera, hen, cameraEffect, effectCleanup,
        getUserMedia]
  · intro hm htab hen hact herr
    have hh : handle w .clickRetry = retryCamera w := by
      simp [handle, htab, hen, hact, herr]
    have hs : step w .clickRetry = render w.state.isCameraEnabled (retryCamera w) := by
      simp [step, hm, hh]
    rw [hs, render_state_same _ _ (by simp [retryCamera, getUserMedia])]
    simp [retryCamera, getUserMedia]

/-- Witness for C11 amended: in the Error state reached when `play()` rejects,
`canplay` keeps the message and sets `isCameraActive`, and disabling clears it. -/
theorem cameraError_set_only_by_failure_witness :
    (run init [.clickToggle, .mediaResolved 0, .loadedMetadata 0,
        .playRejected 0]).state.cameraError = some playbackError ∧
      (step (run init [.clickToggle, .mediaResolved 0, .loadedMetadata 0, .playRejected 0])
        .canPlay).state =
        { (run init [.clickToggle, .mediaResolved 0, .loadedMetadata 0,
            .playRejected 0]).state with isCameraActive := true } ∧
      (step (run init [.clickToggle, .mediaResolved 0, .loadedMetadata 0, .playRejected 0])
        .clickToggle).state.cameraError = none :=
  ⟨by decide,
    (cameraError_set_only_by_failure
      (run init [.clickToggle, .mediaResolved 0, .loadedMetadata 0, .playRejected 0])
      .canPlay).2.2.1 (by decide) (by decide),
    (cameraError_set_only_by_failure
      (run init [.clickToggle, .mediaResolved 0, .loadedMetadata 0, .playRejected 0])
      .clickToggle).2.2.2.2.1 (by decide) (by decide)⟩

/-- C12: in a reachable Error state (camera tab, enabled, not active, `cameraError`
truthy), `Retry Camera` stops the tracks of the held stream, sets `stream` and
`cameraError` to null and `isCameraActive` to false, and issues a new
`getUserMedia` request. If that request rejects, `cameraError` is set; if it
resolves, `loadedmetadata` calls `play()`, whose resolution sets
`isCameraActive` to true and whose rejection sets `cameraError`. -/
theorem retry_reacquires (es : List Event)
    (hm : (run init es).mounted = true)
    (htab : (run init es).state.activeTab = .camera)
    (hen : (run init es).state.isCameraEnabled = true)
    (hact : (run init es).state.isCameraActive = false)
    (herr : truthy (run init es).state.cameraError = true) :
    ((step (run init es) .clickRetry).state.cameraError = none ∧
      (step (run init es) .clickRetry).state.isCameraActive = false ∧
      (step (run init es) .clickRetry).state.stream = none ∧
      (∀ s, (run init es).state.stream = some s → s ∉ (step (run init es) .clickRetry).live) ∧
      (step (run init es) .clickRetry).requests = (run init es).requests ++ [some .retry]) ∧
    (step (step (run init es) .clickRetry)
        (.mediaRejected (run init es).requests.length)).state.cameraError = some accessError ∧
    ∃ v, (run init es).videoRef = some v ∧
      (run (step (run init es) .clickRetry)
        [.mediaResolved (run init es).requests.length, .loadedMetadata v,
          .playResolved v]).state.isCameraActive = true ∧
      (run (step (run init es) .clickRetry)
        [.mediaResolved (run init es).requests.length, .loadedMetadata v,
          .playRejected v]).state.cameraError = some playbackError := by
  have hc := run_committed es hm
  generalize run init es = w at *
  -- the video element is mounted
  obtain ⟨v, hv⟩ : ∃ v, w.videoRef = some v := by
    have h := hc.1
    simp [videoShown, htab, hen] at h
    exact Option.isSome_iff_exists.mp h
  have hvlt : v < w.videos.length := hc.2 v hv
  -- the click
  have hh : handle w .clickRetry = retryCamera w := by
    simp [handle, htab, hen, hact, herr]
  obtain ⟨s1, m1, c1⟩ := step_handle_next w .clickRetry hm hc (by simp)
    (by rw [hh]; simp [retryCamera, getUserMedia])
    (by rw [hh]; simp [retryCamera, getUserMedia])
  rw [hh] at s1 m1 c1
  rw [s1]
  have hreq : (retryCamera w).requests = w.requests ++ [some .retry] := by
    simp [retryCamera, getUserMedia]
  have hget : (retryCamera w).requests.getD w.requests.length none = some .retry := by
    rw [hreq]; simp [List.getD_eq_getElem?_getD]
  have hvr : (retryCamera w).videoRef = some v := by
    simp [retryCamera, getUserMedia, hv]
  have hvid : (retryCamera w).videos = w.videos := by
    simp [retryCamera, getUserMedia]
  refine ⟨⟨by simp [retryCamera, getUserMedia], by simp [retryCamera, getUserMedia],
    by simp [retryCamera, getUserMedia], ?_, hreq⟩, ?_, v, hv, ?_, ?_⟩
  · intro s hs
    simp [retryCamera, getUserMedia, hs, stopIfHeld, stopTracks]
  · have hh2 : handle (retryCamera w) (.mediaRejected w.requests.length) =
        retryMediaRejected { retryCamera w with
          requests := (retryCamera w).requests.set w.requests.length none } := by
      simp only [handle, mediaRejected, hget]
    rw [(step_handle_next _ (.mediaRejected w.requests.length) m1 c1 (by simp)
      (by rw [hh2]; rfl) (by rw [hh2]; rfl)).1, hh2]
    rfl
  · exact (retry_resolved_path _ _ v m1 c1 hvr hget).1
  · exact (retry_resolved_path _ _ v m1 c1 hvr hget).2

/-- Witness for C12: retrying after a rejected first acquisition. -/
theorem retry_reacquires_witness :
    truthy (run init [.clickToggle, .mediaRejected 0]).state.cameraError = true ∧
      (step (step (run init [.clickToggle, .mediaRejected 0]) .clickRetry)
        (.mediaRejected (run init [.clickToggle, .mediaRejected 0]).requests.length)
        ).state.cameraError = some accessError :=
  ⟨by decide,
    (retry_reacquires [.clickToggle, .mediaRejected 0]
      (by decide) (by decide) (by decide) (by decide) (by decide)).2.1⟩

/-- C13: in every state with `isCameraEnabled` true, `toggleCamera` stops the tracks
of the held stream, if any, and sets `stream` to null, `isCameraActive` to false,
`cameraError` to null and `isCameraEnabled` to false, leaving the other state
cells (`capturedImage`, `uploadedImage`, `confidence`, `activeTab`) as they
were; the same holds of the whole click, re-render included. -/
theorem disable_releases_and_resets (w : World) (hen : w.state.isCameraEnabled = true) :
    ((∀ s, w.state.stream = some s → s ∉ (toggleCamera w).live) ∧
      (toggleCamera w).state = { w.state with
        stream := none, isCameraActive := false, cameraError := none,
        isCameraEnabled := false }) ∧
    (w.mounted = true → w.state.activeTab = .camera →
      (∀ s, w.state.stream = some s → s ∉ (step w .clickToggle).live) ∧
      (step w .clickToggle).state = { w.state with
        stream := none, isCameraActive := false, cameraError := none,
        isCameraEnabled := false }) := by
  have h1 : ∀ s, w.state.stream = some s → s ∉ (toggleCamera w).live := by
    intro s hs
    simp [toggleCamera, hen, hs, stopIfHeld, stopTracks]
  have h2 : (toggleCamera w).state = { w.state with
      stream := none, isCameraActive := false, cameraError := none,
      isCameraEnabled := false } := by
    simp [toggleCamera, hen]
  refine ⟨⟨h1, h2⟩, fun hm htab => ?_⟩
  rw [step_disable w hm htab hen]
  constructor
  · intro s hs hmem
    apply h1 s hs
    have hl : (cameraEffect (effectCleanup (commitVideo (toggleCamera w)))).live =
        (effectCleanup (commitVideo (toggleCamera w))).live := by
      unfold cameraEffect getUserMedia
      simp only
      split_ifs <;> rfl
    rw [hl] at hmem
    have := stopIfHeld_live_subset _ _ _ hmem
    simpa using this
  · have hs : (cameraEffect (effectCleanup (commitVideo (toggleCamera w)))).state =
        (toggleCamera w).state := by
      unfold cameraEffect getUserMedia effectCleanup
      simp [h2]
    rw [hs, h2]

/-- Witness for C13: disabling while stream 0 is held. -/
theorem disable_releases_and_resets_witness :
    (run init [.clickToggle, .mediaResolved 0]).state.stream = some 0 ∧
      0 ∈ (run init [.clickToggle, .mediaResolved 0]).live ∧
      0 ∉ (step (run init [.clickToggle, .mediaResolved 0]) .clickToggle).live :=
  ⟨by decide, by decide,
    ((disable_releases_and_resets (run init [.clickToggle, .mediaResolved 0])
      (by decide)).2 (by decide) (by decide)).1 0 (by decide)⟩

/-- C14 as stated fails: when `play()` resolves after the camera was disabled,
`isCameraActive` is true while no video element is mounted; the `Capture`
button is enabled, and `captureFrame` returns at line 75 leaving the canvas and
`capturedImage` as they were. In the Active state with the camera enabled, a
video wider than the range of the canvas attribute leaves the canvas 300 wide,
and a video without dimensions gives `data:,`, which is no PNG. -/
theorem capture_does_nothing_without_video :
    (run init [.clickToggle, .mediaResolved 0, .loadedMetadata 0, .clickToggle,
        .playResolved 0]).state.isCameraActive = true ∧
      (run init [.clickToggle, .mediaResolved 0, .loadedMetadata 0, .clickToggle,
        .playResolved 0]).state.activeTab = .camera ∧
      (run init [.clickToggle, .mediaResolved 0, .loadedMetadata 0, .clickToggle,
        .playResolved 0, .clickCapture ⟨2, 1, some [7, 9]⟩]).state.capturedImage = none ∧
      (run init [.clickToggle, .mediaResolved 0, .loadedMetadata 0, .clickToggle,
        .playResolved 0, .clickCapture ⟨2, 1, some [7, 9]⟩]).canvas.width = 300 ∧
      (run init [.clickToggle, .mediaResolved 0, .loadedMetadata 0, .playResolved 0,
        .clickCapture ⟨2147483648, 1, some [7]⟩]).canvas.width = 300 ∧
      (run init [.clickToggle, .mediaResolved 0, .loadedMetadata 0, .playResolved 0,
        .clickCapture ⟨0, 0, none⟩]).state.capturedImage = some .empty := by
  decide

/-- C14 amended: in a reachable state with `isCameraActive` true on the camera tab, a
click on `Capture` or `Retake` does the following. If the camera is enabled, the
canvas becomes the one `drawFrame` gives for the video at that moment and
`capturedImage` its data URL, an expression in which the previous
`capturedImage` does not occur, so that a second click on either button holds
the second frame only; when `videoWidth` and `videoHeight` are at most 2147483647 the canvas
has exactly that size, and when they are also positive `capturedImage` is the
PNG of the frame. If the camera is disabled, nothing changes. -/
theorem capture_takes_current_frame (es : List Event) (video : VideoFrame) (e : Event)
    (he : e = .clickCapture video ∨ e = .clickRetake video)
    (hm : (run init es).mounted = true)
    (htab : (run init es).state.activeTab = .camera)
    (hact : (run init es).state.isCameraActive = true) :
    ((run init es).state.isCameraEnabled = true →
      (step (run init es) e).canvas = drawFrame video ∧
      (step (run init es) e).state.capturedImage = some (toDataURL (drawFrame video)) ∧
      (video.videoWidth ≤ 2147483647 → video.videoHeight ≤ 2147483647 →
        (step (run init es) e).canvas.width = video.videoWidth ∧
        (step (run init es) e).canvas.height = video.videoHeight ∧
        (0 < video.videoWidth → 0 < video.videoHeight →
          (step (run init es) e).state.capturedImage =
            some (.png video.videoWidth video.videoHeight (drawFrame video).pixels))) ∧
      ∀ (next : VideoFrame) (e2 : Event), e2 = .clickCapture next ∨ e2 = .clickRetake next →
        (step (step (run init es) e) e2).state.capturedImage =
          some (toDataURL (drawFrame next))) ∧
    ((run init es).state.isCameraEnabled = false → step (run init es) e = run init es) := by
  have hc := run_committed es hm
  generalize run init es = w at *
  refine ⟨fun hen => ?_, fun hen => step_capture_disabled w video e he hm hc hen⟩
  have h1 := step_capture w video e he hm hc htab hen hact
  have h2 : ∀ (next : VideoFrame) (e2 : Event),
      e2 = .clickCapture next ∨ e2 = .clickRetake next →
      (step (step w e) e2).state.capturedImage = some (toDataURL (drawFrame next)) := by
    intro next e2 he2
    rw [step_capture (step w e) next e2 he2
      (by rw [h1]; exact hm) (by rw [h1]; exact hc) (by rw [h1]; exact htab)
      (by rw [h1]; exact hen) (by rw [h1]; exact hact)]
  refine ⟨by rw [h1], by rw [h1], fun hw hh => ?_, h2⟩
  obtain ⟨d1, d2, d3⟩ := drawFrame_in_range video hw hh
  rw [h1]
  exact ⟨d1, d2, fun p1 p2 => by rw [← d3 p1 p2]⟩

/-- Witness for C14 amended: a capture of a 2 by 1 frame in the Active state. -/
theorem capture_takes_current_frame_witness :
    (run init [.clickToggle, .mediaResolved 0, .loadedMetadata 0,
        .playResolved 0]).state.isCameraActive = true ∧
      (run init [.clickToggle, .mediaResolved 0, .loadedMetadata 0,
        .playResolved 0]).state.isCameraEnabled = true ∧
      (step (run init [.clickToggle, .mediaResolved 0, .loadedMetadata 0, .playResolved 0])
        (.clickCapture ⟨2, 1, some [7, 9]⟩)).state.capturedImage = some (.png 2 1 [7, 9]) :=
  ⟨by decide, by decide,
    (((capture_takes_current_frame
      [.clickToggle, .mediaResolved 0, .loadedMetadata 0, .playResolved 0]
      ⟨2, 1, some [7, 9]⟩ (.clickCapture ⟨2, 1, some [7, 9]⟩) (Or.inl rfl)
      (by decide) (by decide) (by decide)).1 (by decide)).2.2.1
        (by decide) (by decide)).2.2 (by decide) (by decide)⟩

/-- C15: on the mounted component outside the about tab, choosing a file whose
MIME type starts with `image/` starts a reader for it and changes no state cell;
once the reader has loaded, `uploadedImage` and `capturedImage` hold the data
URL of the file and `activeTab` is `upload`. Choosing a file of another type, or
no file, starts no reader and no timer and changes no state cell. -/
theorem upload_accepts_images_only (w : World) (file : Option File) (hm : w.mounted = true)
    (htab : w.state.activeTab ≠ .about) :
    (∀ f, file = some f → startsWith f.mime "image/" = true →
      (step w (.fileChosen file)).readers = w.readers ++ [f] ∧
      (step w (.fileChosen file)).state = w.state ∧
      (run w [.fileChosen file, .readerLoaded w.readers.length]).state.uploadedImage
        = some (.file f.mime f.bytes) ∧
      (run w [.fileChosen file, .readerLoaded w.readers.length]).state.capturedImage
        = some (.file f.mime f.bytes) ∧
      (run w [.fileChosen file, .readerLoaded w.readers.length]).state.activeTab = .upload) ∧
    ((∀ f, file = some f → startsWith f.mime "image/" = false) →
      (step w (.fileChosen file)).state = w.state ∧
      (step w (.fileChosen file)).readers = w.readers ∧
      (step w (.fileChosen file)).timers = w.timers) := by
  have hab : (w.state.activeTab != Tab.about) = true := by
    simpa using htab
  constructor
  · intro f hf hacc
    subst hf
    have hh : handle w (.fileChosen (some f)) = { w with readers := w.readers ++ [f] } := by
      simp [handle, hab, handleImageUpload, hacc]
    have s1 : step w (.fileChosen (some f)) =
        commitVideo { w with readers := w.readers ++ [f] } := by
      rw [step_eq_commit w _ hm (by simp) (by rw [hh]), hh]
    have hget : (step w (.fileChosen (some f))).readers.get? w.readers.length = some f := by
      rw [s1]; simp
    have hm1 : (step w (.fileChosen (some f))).mounted = true := by
      rw [s1]; simpa using hm
    have hst : (step w (.fileChosen (some f))).state = w.state := by
      rw [s1]; simp
    have hh2 : (handle (step w (.fileChosen (some f))) (.readerLoaded w.readers.length)).state =
        { w.state with
          uploadedImage := some (.file f.mime f.bytes)
          capturedImage := some (.file f.mime f.bytes)
          activeTab := .upload } := by
      simp only [handle, hget, readerOnload, hst]
    have s2 : (step (step w (.fileChosen (some f))) (.readerLoaded w.readers.length)).state =
        { w.state with
          uploadedImage := some (.file f.mime f.bytes)
          capturedImage := some (.file f.mime f.bytes)
          activeTab := .upload } := by
      rw [step_eq_commit _ _ hm1 (by simp) (by rw [hh2, hst]), commitVideo_state, hh2]
    refine ⟨by rw [s1]; simp, hst, ?_, ?_, ?_⟩ <;>
      simp only [run, List.foldl_cons, List.foldl_nil, s2]
  · intro hrej
    have hh : handle w (.fileChosen file) = w := by
      cases file with
      | none => simp [handle, handleImageUpload]
      | some f => simp [handle, handleImageUpload, hrej f rfl]
    rw [step_eq_commit w _ hm (by simp) (by rw [hh]), hh]
    simp

/-- Witness for C15: a PNG file chosen on the upload tab. -/
theorem upload_accepts_images_only_witness :
    startsWith "image/png" "image/" = true ∧
      (run (run init [.clickTab .upload])
        [.fileChosen (some ⟨"image/png", [137, 80]⟩),
          .readerLoaded (run init [.clickTab .upload]).readers.length]).state.uploadedImage
        = some (.file "image/png" [137, 80]) :=
  ⟨by decide,
    ((upload_accepts_images_only (run init [.clickTab .upload])
      (some ⟨"image/png", [137, 80]⟩) (by decide) (by decide)).1
        ⟨"image/png", [137, 80]⟩ rfl (by decide)).2.2.1⟩

end BreedRecognition

